import Mathlib

/-!
Verification of the Architecture-App repository (app.py, app2.py, app3.py, app4.py).

The development shallowly embeds the deterministic logic of the four Streamlit
variants: the human-readable quantity parser `parse_number_input`, the static
cost matrix `TOOL_COSTS` and `estimate_tool_costs`, the JSON handling around
the oracle reply (`json.loads` / `json.dumps` are modelled by `json_loads` /
`json_dumps` over an explicit `Json` value type), the linear and layered
flowchart builders, and the module-level submit handlers of app3/app4.

Modelling conventions:
* Python strings are modelled as `String` / `List Char` restricted to their
  ASCII behaviour (Python's `re` module and `str.lower` also handle non-ASCII
  text; no claim depends on that).
* Python `float` arithmetic in `parse_number_input` (`int(float(num) * mult)`)
  is modelled as IEEE-754 binary64 arithmetic on non-negative values:
  `float(num)` is the correctly rounded (round-to-nearest, ties-to-even)
  53-bit-mantissa dyadic value of the decimal numeral, the product with the
  exactly representable multiplier is rounded the same way, and `int(...)`
  is the dyadic floor (`pyIntOfFloatProd`).  The exponent is unbounded in the
  model: overflow to infinity (which would make `int` raise `OverflowError`,
  for numerals of roughly 309 digits) and the subnormal granularity floor
  (whose values all truncate to 0) are outside every claim's range.
* Exceptions raised by attribute access on non-dict values (`.get` on a parsed
  JSON value that is not an object) are modelled with `Except PyError`.
* Streamlit calls (`st.error`, rendering) are I/O; an error outcome carries
  only its message, and a request that errors renders nothing.
-/

/-! ## Character helpers (ASCII models of Python predicates) -/

/-- ASCII decimal digit, the model of the regex class `\d`. -/
def isDigitChar (c : Char) : Bool := 48 ≤ c.toNat && c.toNat ≤ 57

/-- ASCII lower-case letter, the regex class `[a-z]`. -/
def isAsciiLower (c : Char) : Bool := 97 ≤ c.toNat && c.toNat ≤ 122

/-- Python whitespace (`\s`, `str.strip`): space, tab, newline, carriage
return, vertical tab, form feed. -/
def isPySpace (c : Char) : Bool :=
  c == ' ' || c == '\t' || c == '\n' || c == '\r' ||
  c == Char.ofNat 11 || c == Char.ofNat 12

/-- ASCII model of `str.lower` applied to one character. -/
def lowerChar (c : Char) : Char :=
  if 65 ≤ c.toNat && c.toNat ≤ 90 then Char.ofNat (c.toNat + 32) else c

/-- ASCII model of upper-casing one character (for `str.capitalize`). -/
def upperChar (c : Char) : Char :=
  if 97 ≤ c.toNat && c.toNat ≤ 122 then Char.ofNat (c.toNat - 32) else c

/-- Numeric value of a digit string, most significant digit first. -/
def digitsVal (ds : List Char) : Nat :=
  ds.foldl (fun a c => a * 10 + (c.toNat - 48)) 0

/-- `str.strip()`: remove leading and trailing Python whitespace. -/
def stripEnds (l : List Char) : List Char :=
  ((l.dropWhile isPySpace).reverse.dropWhile isPySpace).reverse

/-- The normalisation prefix of `parse_number_input`:
`input_text.lower().replace(",", "").strip()`. -/
def normalizeInput (s : List Char) : List Char :=
  stripEnds ((s.map lowerChar).filter (fun c => !(c == ',')))

/-- The `number_map` lookup `number_map.get(unit, 1)`: recognised unit words
map to their multipliers, anything else (including the absent unit, the empty
list) falls back to `1`. -/
def unitMultiplier (u : List Char) : Nat :=
  if u = "k".data ∨ u = "thousand".data then 1000
  else if u = "m".data ∨ u = "million".data then 1000000
  else if u = "b".data ∨ u = "billion".data then 1000000000
  else 1

/-! ### IEEE-754 binary64 model (pure natural-number arithmetic)

`float(num) * mult` in `parse_number_input` is double arithmetic.  The model
below computes with exact naturals: a positive rational `n / d` is rounded to
a dyadic `m * 2 ^ s` whose mantissa `m` has 53 bits, by round-to-nearest with
ties to even; the product with the integer multiplier (itself exactly
representable, being at most `10^9 < 2^53`) is rounded the same way, and
`int(...)` truncates the final dyadic towards zero. -/

/-- Binary digit count of `n` computed with explicit fuel (`0` has no
digits). -/
def bitLenAux : Nat → Nat → Nat
  | 0, _ => 0
  | fuel + 1, n => if n = 0 then 0 else bitLenAux fuel (n / 2) + 1

/-- Binary digit count of `n`; the fuel `n` suffices since `n < 2 ^ n`. -/
def bitLen (n : Nat) : Nat := bitLenAux n n

/-- Whether `2 ^ e ≤ num / den` as exact rationals, for an integer `e`. -/
def qGePow2 (num den : Nat) (e : Int) : Bool :=
  if 0 ≤ e then decide (den * 2 ^ e.toNat ≤ num)
  else decide (den ≤ num * 2 ^ (-e).toNat)

/-- Floor of the base-2 logarithm of `num / den` (for positive arguments):
the bit-length difference is an over-approximation by at most one, corrected
by one comparison. -/
def qLog2 (num den : Nat) : Int :=
  if qGePow2 num den ((bitLen num : Int) - (bitLen den : Int))
  then (bitLen num : Int) - (bitLen den : Int)
  else (bitLen num : Int) - (bitLen den : Int) - 1

/-- Round `n / d` to the nearest integer, ties to the even neighbour. -/
def rndHalfEven (n d : Nat) : Nat :=
  if 2 * (n % d) < d then n / d
  else if d < 2 * (n % d) then n / d + 1
  else if n / d % 2 = 0 then n / d else n / d + 1

/-- Round the positive rational `n / d` to the IEEE binary64 value nearest to
it, returned as a mantissa-exponent pair `(m, s)` denoting `m * 2 ^ s` with
`2 ^ 52 ≤ m ≤ 2 ^ 53` (the exponent is not clamped: see the header note). -/
def roundFloat (n d : Nat) : Nat × Int :=
  (if 0 ≤ qLog2 n d - 52
   then rndHalfEven n (d * 2 ^ (qLog2 n d - 52).toNat)
   else rndHalfEven (n * 2 ^ (52 - qLog2 n d).toNat) d,
   qLog2 n d - 52)

/-- `int(...)` on a non-negative dyadic `m * 2 ^ s`: truncation is floor. -/
def dyadicFloor (m : Nat) (s : Int) : Nat :=
  if 0 ≤ s then m * 2 ^ s.toNat else m / 2 ^ (-s).toNat

/-- `int(float(N / D) * M)` for naturals: round `N / D` to a double, multiply
by the exactly-representable `M` with one more rounding (IEEE multiplication
is the correctly rounded exact product), truncate. -/
def pyIntOfFloatProd (N D M : Nat) : Nat :=
  if N = 0 then 0
  else
    if 0 ≤ (roundFloat N D).2 then
      dyadicFloor (roundFloat ((roundFloat N D).1 * M * 2 ^ (roundFloat N D).2.toNat) 1).1
        (roundFloat ((roundFloat N D).1 * M * 2 ^ (roundFloat N D).2.toNat) 1).2
    else
      dyadicFloor (roundFloat ((roundFloat N D).1 * M) (2 ^ (-(roundFloat N D).2).toNat)).1
        (roundFloat ((roundFloat N D).1 * M) (2 ^ (-(roundFloat N D).2).toNat)).2

/-- The optional fractional group `(?:\.\d+)?` of the regex: consume `.`
followed by at least one digit, otherwise consume nothing. -/
def fracSplit : List Char → List Char × List Char
  | [] => ([], [])
  | c :: r =>
    if c = '.' then
      if r.takeWhile isDigitChar = [] then ([], c :: r)
      else (r.takeWhile isDigitChar, r.dropWhile isDigitChar)
    else ([], c :: r)

/-- `parse_number_input` from app2.py / app3.py / app4.py (the three copies are
identical): normalise, match `(\d+(?:\.\d+)?)\s*([a-z]+)?` at the start, and
return `int(float(num) * multiplier)` — the truncated double product of the
matched numeral `N / 10^k` (digits `d1`, `k` fraction digits) with the unit
multiplier, computed by `pyIntOfFloatProd` (see the header note). -/
def parse_number_input (input_text : List Char) : Option Nat :=
  let t := normalizeInput input_text
  let d1 := t.takeWhile isDigitChar
  if d1 = [] then none
  else
    let fr := fracSplit (t.dropWhile isDigitChar)
    let unit := (fr.2.dropWhile isPySpace).takeWhile isAsciiLower
    some (pyIntOfFloatProd (digitsVal d1 * 10 ^ fr.1.length + digitsVal fr.1)
          (10 ^ fr.1.length) (unitMultiplier unit))

/-- The caller pattern `parse_number_input(x) or 0` (app2/app3/app4): both a
failed parse (`None`) and a successful parse of the falsy int `0` yield `0`. -/
def parse_or_zero (t : List Char) : Nat :=
  match parse_number_input t with
  | none => 0
  | some n => n

/-- Whether a character list begins with a decimal digit (the condition for
the regex `(\d+...)` to match at the start of the text). -/
def startsWithDigit : List Char → Bool
  | [] => false
  | c :: _ => isDigitChar c

/-! ## JSON values

`Json` models the Python values produced by `json.loads`: `None`, booleans,
numbers, strings, lists and dicts (as association lists in insertion order,
duplicate keys collapsed on insertion exactly as repeated dict assignment
does).  A number is kept as a scaled integer `mantissa / 10 ^ frac_digits`;
exponent notation and the non-standard `NaN`/`Infinity` literals accepted by
Python's `json` module are outside the model (no claim involves them). -/

inductive Json where
  | null : Json
  | bool (b : Bool) : Json
  | num (mantissa : Int) (frac_digits : Nat) : Json
  | str (s : String) : Json
  | arr (elems : List Json) : Json
  | obj (fields : List (String × Json)) : Json

/-- Python exceptions that the modelled code can raise. -/
inductive PyError where
  | attributeError : PyError
  | typeError : PyError
deriving DecidableEq

/-- Dict lookup on the association-list representation (keys are unique by
construction, see `insertField`). -/
def lookupField : List (String × Json) → String → Option Json
  | [], _ => none
  | (k1, v1) :: rest, k => if k1 = k then some v1 else lookupField rest k

/-- Dict assignment `d[k] = v`: replace the value of an existing key in
place, otherwise append the new pair. -/
def insertField : List (String × Json) → String → Json → List (String × Json)
  | [], k, v => [(k, v)]
  | (k1, v1) :: rest, k, v =>
    if k1 = k then (k1, v) :: rest else (k1, v1) :: insertField rest k v

/-- Python truthiness of a JSON value: `None`, `False`, `0`, `""`, `[]` and
an empty dict are falsy, everything else is truthy. -/
def Json.truthy : Json → Bool
  | .null => false
  | .bool b => b
  | .num m _ => m != 0
  | .str s => !s.isEmpty
  | .arr xs => !xs.isEmpty
  | .obj fs => !fs.isEmpty

/-- Python `d.get(key, default)` where `d` is expected to be a dict: on any
non-dict value the attribute access raises `AttributeError`. -/
def pyGet (j : Json) (key : String) (default : Json) : Except PyError Json :=
  match j with
  | .obj fields => .ok ((lookupField fields key).getD default)
  | _ => .error .attributeError

/-! ## Parsing (`json.loads`) -/

/-- JSON whitespace (space, tab, line feed, carriage return). -/
def skipWs : List Char → List Char
  | [] => []
  | c :: r => if c = ' ' ∨ c = '\t' ∨ c = '\n' ∨ c = '\r' then skipWs r else c :: r

/-- One-character string escapes accepted after a backslash. -/
def unescapeChar (c : Char) : Option Char :=
  if c = '"' then some '"'
  else if c = '\\' then some '\\'
  else if c = '/' then some '/'
  else if c = 'n' then some '\n'
  else if c = 't' then some '\t'
  else if c = 'r' then some '\r'
  else if c = 'b' then some (Char.ofNat 8)
  else if c = 'f' then some (Char.ofNat 12)
  else none

/-- Hexadecimal digit value. -/
def hexVal (c : Char) : Option Nat :=
  if 48 ≤ c.toNat ∧ c.toNat ≤ 57 then some (c.toNat - 48)
  else if 97 ≤ c.toNat ∧ c.toNat ≤ 102 then some (c.toNat - 87)
  else if 65 ≤ c.toNat ∧ c.toNat ≤ 70 then some (c.toNat - 55)
  else none

/-- The code point of a four-hex-digit group. -/
def hex4 (x y z w : Nat) : Nat := 4096 * x + 256 * y + 16 * z + w

mutual

/-- Body of a JSON string literal after the opening quote: content up to the
closing quote, with escapes resolved. -/
def parseJStringBody : List Char → Option (List Char × List Char)
  | [] => none
  | c :: rest =>
    if c = '"' then some ([], rest)
    else if c = '\\' then parseEscapeSeq rest
    else if c.toNat < 32 then none
    else (parseJStringBody rest).map (fun p => (c :: p.1, p.2))

/-- The characters after a backslash inside a string literal. -/
def parseEscapeSeq : List Char → Option (List Char × List Char)
  | [] => none
  | e :: rest2 =>
    if e = 'u' then parseU rest2
    else
      match unescapeChar e with
      | some d => (parseJStringBody rest2).map (fun p => (d :: p.1, p.2))
      | none => none

/-- A `\u` escape: four hex digits; a value in the high-surrogate range must
be followed by a low-surrogate escape and the pair is recombined into one
code point, exactly as Python's `json` scanner does.  A lone surrogate would
produce a Python string that is not a sequence of Unicode scalar values:
such strings lie outside this model's `Char`-based strings, so the model
rejects them (`json.dumps` output, the only parsed text a claim quantifies
over, never contains an unpaired surrogate escape). -/
def parseU : List Char → Option (List Char × List Char)
  | a :: b :: c2 :: d :: rest3 =>
    match hexVal a, hexVal b, hexVal c2, hexVal d with
    | some x, some y, some z, some w =>
      if 55296 ≤ hex4 x y z w ∧ hex4 x y z w < 56320 then
        parseLowSurr (hex4 x y z w) rest3
      else if 56320 ≤ hex4 x y z w ∧ hex4 x y z w < 57344 then none
      else (parseJStringBody rest3).map (fun p => (Char.ofNat (hex4 x y z w) :: p.1, p.2))
    | _, _, _, _ => none
  | _ => none

/-- The low-surrogate escape required after a high surrogate `hi`: the
recombined code point is `0x10000 + (hi - 0xD800) * 0x400 + (lo - 0xDC00)`. -/
def parseLowSurr : Nat → List Char → Option (List Char × List Char)
  | hi, e2 :: u2 :: a2 :: b2 :: c3 :: d2 :: rest4 =>
    if e2 = '\\' ∧ u2 = 'u' then
      match hexVal a2, hexVal b2, hexVal c3, hexVal d2 with
      | some x2, some y2, some z2, some w2 =>
        if 56320 ≤ hex4 x2 y2 z2 w2 ∧ hex4 x2 y2 z2 w2 < 57344 then
          (parseJStringBody rest4).map (fun p =>
            (Char.ofNat (65536 + 1024 * (hi - 55296) + (hex4 x2 y2 z2 w2 - 56320)) :: p.1, p.2))
        else none
      | _, _, _, _ => none
    else none
  | _, _ => none

end

/-- A JSON number: optional minus, integer part without leading zeros,
optional fraction (exponent notation is outside the model). -/
def parseNumber (s : List Char) : Option (Json × List Char) :=
  let neg : Bool × List Char :=
    match s with
    | c :: r => if c = '-' then (true, r) else (false, s)
    | [] => (false, [])
  let d1 := neg.2.takeWhile isDigitChar
  let r1 := neg.2.dropWhile isDigitChar
  if d1 = [] then none
  else if 1 < d1.length ∧ d1.head? = some '0' then none
  else
    let signVal : Int := if neg.1 then -(digitsVal d1 : Int) else (digitsVal d1 : Int)
    match r1 with
    | '.' :: r2 =>
      let d2 := r2.takeWhile isDigitChar
      if d2 = [] then none
      else
        let m : Int := (digitsVal d1 * 10 ^ d2.length + digitsVal d2 : Nat)
        some (Json.num (if neg.1 then -m else m) d2.length, r2.dropWhile isDigitChar)
    | _ => some (Json.num signVal 0, r1)

/-- Match an expected literal suffix (the tails of `true`, `false`, `null`). -/
def expectLit : List Char → List Char → Json → Option (Json × List Char)
  | [], s, j => some (j, s)
  | l :: ls, c :: s, j => if c = l then expectLit ls s j else none
  | _ :: _, [], _ => none

/-- Member loop of a JSON object (after `\x7b`, for a non-empty object): the
value parser `pv` is supplied by the caller; `fuel` bounds the number of
members. -/
def parseMembersLoop (pv : List Char → Option (Json × List Char)) :
    Nat → List (String × Json) → List Char → Option (Json × List Char)
  | 0, _, _ => none
  | fuel + 1, acc, s =>
    match skipWs s with
    | [] => none
    | c :: r =>
      if c = '"' then
        match parseJStringBody r with
        | none => none
        | some (key, r2) =>
          match skipWs r2 with
          | [] => none
          | c2 :: r3 =>
            if c2 = ':' then
              match pv r3 with
              | none => none
              | some (v, r4) =>
                match skipWs r4 with
                | [] => none
                | c3 :: r5 =>
                  if c3 = ',' then
                    parseMembersLoop pv fuel (insertField acc ⟨key⟩ v) r5
                  else if c3 = '\x7d' then
                    some (Json.obj (insertField acc ⟨key⟩ v), r5)
                  else none
            else none
      else none

/-- Element loop of a JSON array (after `[`, for a non-empty array). -/
def parseElemsLoop (pv : List Char → Option (Json × List Char)) :
    Nat → List Json → List Char → Option (Json × List Char)
  | 0, _, _ => none
  | fuel + 1, acc, s =>
    match pv s with
    | none => none
    | some (v, r) =>
      match skipWs r with
      | [] => none
      | c :: r2 =>
        if c = ',' then parseElemsLoop pv fuel (acc ++ [v]) r2
        else if c = ']' then some (Json.arr (acc ++ [v]), r2)
        else none

/-- Recursive-descent JSON value parser; `fuel` dominates both the nesting
depth and the member counts (see `json_loads`). -/
def parseValue : Nat → List Char → Option (Json × List Char)
  | 0, _ => none
  | fuel + 1, s =>
    match skipWs s with
    | [] => none
    | c :: r =>
      if c = '\x7b' then
        match skipWs r with
        | [] => none
        | c2 :: r2 =>
          if c2 = '\x7d' then some (Json.obj [], r2)
          else parseMembersLoop (parseValue fuel) fuel [] r
      else if c = '[' then
        match skipWs r with
        | [] => none
        | c2 :: r2 =>
          if c2 = ']' then some (Json.arr [], r2)
          else parseElemsLoop (parseValue fuel) fuel [] r
      else if c = '"' then
        (parseJStringBody r).map (fun p => (Json.str ⟨p.1⟩, p.2))
      else if c = 't' then expectLit "rue".data r (Json.bool true)
      else if c = 'f' then expectLit "alse".data r (Json.bool false)
      else if c = 'n' then expectLit "ull".data r Json.null
      else parseNumber (c :: r)

/-- `json.loads`: parse one JSON value and require only trailing whitespace
after it.  The fuel `3 * length + 3` exceeds what any input can consume. -/
def json_loads (s : String) : Option Json :=
  match parseValue (3 * s.data.length + 3) s.data with
  | some (j, rest) => if skipWs rest = [] then some j else none
  | none => none

/-! ## Serialisation (`json.dumps(..., indent=4)`) -/

/-- Four-digit hexadecimal rendering for a `\u` escape (lower-case, as
CPython formats with `%04x`). -/
def hexDigit (k : Nat) : Char :=
  if k < 10 then Char.ofNat (48 + k) else Char.ofNat (87 + k)

/-- The surrogate-pair high half of a code point above the BMP. -/
def hiSurr (n : Nat) : Nat := 55296 + (n - 65536) / 1024

/-- The surrogate-pair low half of a code point above the BMP. -/
def loSurr (n : Nat) : Nat := 56320 + (n - 65536) % 1024

/-- One `\uXXXX` escape group for the code point `n < 0x10000`. -/
def uEscape (n : Nat) : List Char :=
  ['\\', 'u', hexDigit (n / 4096), hexDigit (n / 256 % 16),
   hexDigit (n / 16 % 16), hexDigit (n % 16)]

/-- Escape one character the way `json.dumps` (with its default
`ensure_ascii=True`) does: the named escapes, printable ASCII verbatim, a
single `\u` escape for other BMP code points, and a `\u` surrogate pair for
code points above the BMP. -/
def escapeChar (c : Char) : List Char :=
  if c = '"' then ['\\', '"']
  else if c = '\\' then ['\\', '\\']
  else if c = '\n' then ['\\', 'n']
  else if c = '\t' then ['\\', 't']
  else if c = '\r' then ['\\', 'r']
  else if c = Char.ofNat 8 then ['\\', 'b']
  else if c = Char.ofNat 12 then ['\\', 'f']
  else if c.toNat < 32 || 126 < c.toNat then
    if c.toNat < 65536 then uEscape c.toNat
    else uEscape (hiSurr c.toNat) ++ uEscape (loSurr c.toNat)
  else [c]

/-- Escape a whole string body. -/
def escapeList : List Char → List Char
  | [] => []
  | c :: cs => escapeChar c ++ escapeList cs

/-- A quoted JSON string literal. -/
def quoteStr (s : String) : List Char :=
  '"' :: (escapeList s.data ++ ['"'])

/-- Decimal rendering of the number `m / 10 ^ e` (Python prints the exact
digits for ints; for floats this keeps the parsed digits instead of float
re-formatting — no claim serialises a fractional number). -/
def dumpNum (m : Int) (e : Nat) : List Char :=
  if e = 0 then (toString m).data
  else
    (if m < 0 then ['-'] else []) ++
    (toString (m.natAbs / 10 ^ e)).data ++ '.' ::
    (List.replicate (e - (toString (m.natAbs % 10 ^ e)).length) '0' ++
     (toString (m.natAbs % 10 ^ e)).data)

/-- The indent prefix of nesting level `lvl` for `indent=4`. -/
def indentChars (lvl : Nat) : List Char := List.replicate (4 * lvl) ' '

mutual

/-- Render one JSON value at nesting level `lvl` (`json.dumps` body). -/
def dumpVal : Nat → Json → List Char
  | _, .null => "null".data
  | _, .bool true => "true".data
  | _, .bool false => "false".data
  | _, .num m e => dumpNum m e
  | _, .str s => quoteStr s
  | _, .arr [] => "[]".data
  | lvl, .arr (x :: xs) =>
    '[' :: '\n' :: (dumpElemsLoop (lvl + 1) (x :: xs)
      ++ ('\n' :: (indentChars lvl ++ [']'])))
  | _, .obj [] => ['\x7b', '\x7d']
  | lvl, .obj (f :: fs) =>
    '\x7b' :: '\n' :: (dumpFieldsLoop (lvl + 1) (f :: fs)
      ++ ('\n' :: (indentChars lvl ++ ['\x7d'])))

/-- Array-element rendering loop: one element per line at level `lvl`,
separated by `,`. -/
def dumpElemsLoop : Nat → List Json → List Char
  | _, [] => []
  | lvl, [v] => indentChars lvl ++ dumpVal lvl v
  | lvl, v :: rest =>
    indentChars lvl ++ (dumpVal lvl v ++ (',' :: '\n' :: dumpElemsLoop lvl rest))

/-- Object-member rendering loop: one `"key": value` item per line at level
`lvl`, separated by `,`. -/
def dumpFieldsLoop : Nat → List (String × Json) → List Char
  | _, [] => []
  | lvl, [(k, v)] => indentChars lvl ++ (quoteStr k ++ (':' :: ' ' :: dumpVal lvl v))
  | lvl, (k, v) :: rest =>
    indentChars lvl ++ (quoteStr k ++ (':' :: ' ' :: (dumpVal lvl v ++ (',' :: '\n' ::
      dumpFieldsLoop lvl rest))))

end

/-- `json.dumps(j, indent=4)`. -/
def json_dumps (j : Json) : String := ⟨dumpVal 0 j⟩

/-- Python `str(x)` as used in the f-string labels.  Exact for strings (the
string itself), booleans, `None` and ints; container and float rendering is
approximated by the JSON rendering (no claim formats a non-string tool). -/
def pyFormat : Json → String
  | .str s => s
  | .bool true => "True"
  | .bool false => "False"
  | .null => "None"
  | .num m e => ⟨dumpNum m e⟩
  | j => ⟨dumpVal 0 j⟩

/-! ## The oracle adapter and the flowchart builders -/

/-- A directed-graph description handed to the renderer: nodes are
`(identifier, display label)` pairs, edges are ordered identifier pairs, both
in insertion order.  Style hints (colours, shapes) carry no claim-relevant
content and are omitted. -/
structure Graph where
  nodes : List (String × String)
  edges : List (String × String)
deriving DecidableEq

/-- `get_tool_suggestions` (app.py/app2.py/app3.py/app4.py): the OpenAI call
is an external collaborator, so the function is modelled on the reply text it
produces; `json.loads` failure is surfaced (`st.error`) and yields `None`. -/
def get_tool_suggestions (response_text : String) : Option Json :=
  json_loads response_text

/-- The extraction `tool_suggestions.get(cat, {}).get('tool', 'Unknown')`
(app.py lines 72-74 and its copies); a raised exception propagates. -/
def extractTool (tool_suggestions : Json) (cat : String) : Except PyError Json :=
  match pyGet tool_suggestions cat (Json.obj []) with
  | .error e => .error e
  | .ok tool_info => pyGet tool_info "tool" (Json.str "Unknown")

/-- The linear flowchart of app.py lines 66-82 (identical in app2.py and
app3.py): a `Data Sources` node labelled with the newline-joined source
names, one node per pipeline stage labelled with the extracted tool, and the
three edges of the pipeline. -/
def buildLinearFlowchart (data_sources : List String) (tool_suggestions : Json) :
    Except PyError Graph :=
  match extractTool tool_suggestions "ingestion" with
  | .error e => .error e
  | .ok ingestion_tool =>
  match extractTool tool_suggestions "transformation" with
  | .error e => .error e
  | .ok transformation_tool =>
  match extractTool tool_suggestions "visualization" with
  | .error e => .error e
  | .ok visualization_tool =>
  .ok
    { nodes :=
        [("Data Sources", String.intercalate "\n" data_sources),
         ("Ingestion", pyFormat ingestion_tool ++ " (Ingestion)"),
         ("Transformation", pyFormat transformation_tool ++ " (Transformation)"),
         ("Visualization", pyFormat visualization_tool ++ " (Visualization)")],
      edges :=
        [("Data Sources", "Ingestion"),
         ("Ingestion", "Transformation"),
         ("Transformation", "Visualization")] }

/-- `generate_flowchart_and_json` (app.py, identical logic in app2.py and, up
to the extra returned component, app3.py): a falsy or unparseable suggestion
returns the pair `(None, None)` before any graph work; otherwise the JSON
dump and the linear flowchart are produced.  The `flowchart.render` disk
write is environment I/O outside the model. -/
def generate_flowchart_and_json (data_sources : List String) (response_text : String) :
    Except PyError (Option String × Option Graph) :=
  match get_tool_suggestions response_text with
  | none => .ok (none, none)
  | some tool_suggestions =>
    if tool_suggestions.truthy = false then .ok (none, none)
    else
      match buildLinearFlowchart data_sources tool_suggestions with
      | .error e => .error e
      | .ok g => .ok (some (json_dumps tool_suggestions), some g)

/-- The twelve fixed inter-layer edges of app4.py lines 119-130. -/
def complexFixedEdges : List (String × String) :=
  [("Ingestion Layer", "Landing Zone"),
   ("Ingestion Layer", "Streaming Layer"),
   ("Landing Zone", "Data Warehouse"),
   ("Streaming Layer", "Transformation Layer"),
   ("Data Warehouse", "Transformation Layer"),
   ("Transformation Layer", "Feature Store"),
   ("Transformation Layer", "BI Layer"),
   ("Feature Store", "Analytics/ML"),
   ("Analytics/ML", "BI Layer"),
   ("Streaming Layer", "Monitoring"),
   ("Transformation Layer", "Monitoring"),
   ("Landing Zone", "Monitoring")]

/-- `generate_complex_flowchart` (app4.py lines 91-132): one node per
selected data source (identifier `source_<name>`), nine fixed layer nodes,
an edge from every source node to the single `Ingestion Layer` node, and the
fixed inter-layer edges. -/
def generate_complex_flowchart (data_sources : List String) (tool_suggestions : Json) :
    Except PyError Graph :=
  match extractTool tool_suggestions "ingestion" with
  | .error e => .error e
  | .ok ingestion_tool =>
  match extractTool tool_suggestions "transformation" with
  | .error e => .error e
  | .ok transformation_tool =>
  match extractTool tool_suggestions "visualization" with
  | .error e => .error e
  | .ok visualization_tool =>
  .ok
    { nodes :=
        data_sources.map (fun s => ("source_" ++ s, s)) ++
        [("Ingestion Layer", pyFormat ingestion_tool ++ "\n(Ingestion)"),
         ("Landing Zone", "Landing Zone\n(S3 / Blob Storage)"),
         ("Data Warehouse", "Data Warehouse\n(Redshift / Snowflake)"),
         ("Streaming Layer", "Streaming Layer\n(Kafka / Flink / KSQL)"),
         ("Transformation Layer", pyFormat transformation_tool ++ "\n(Transformation)"),
         ("Feature Store", "Feature Store\n(ML Features)"),
         ("BI Layer", pyFormat visualization_tool ++ "\n(BI Visualization)"),
         ("Analytics/ML", "Analytics Layer\n(Data Science & ML)"),
         ("Monitoring", "Monitoring & Alerts\n(Elastic / Kibana / Grafana)")],
      edges :=
        data_sources.map (fun s => ("source_" ++ s, "Ingestion Layer")) ++
        complexFixedEdges }

/-- Modelled from the spec: the layered multi-select variant described in
spec section 4.5 keeps a list of selected items per category and generates
the edges between two adjacent category lists as their exhaustive
cross-product (every item of the first category to every item of the
second).  That variant's source file is not under src/; in app4.py the
ingestion category list is the single `Ingestion Layer` node, so its
source-to-ingestion edges are this cross-product with a singleton second
list. -/
def layeredCrossEdges (layerA layerB : List String) : List (String × String) :=
  layerA.flatMap (fun a => layerB.map (fun b => (a, b)))

/-! ## Cost estimation (app3.py) -/

/-- A cost-matrix entry: a monthly price or the `"N/A"` sentinel. -/
inductive CostVal where
  | price (n : Nat) : CostVal
  | na : CostVal
deriving DecidableEq

/-- `TOOL_COSTS` from app3.py lines 31-40. -/
def TOOL_COSTS : List (String × List (String × Nat)) :=
  [("Domo", [("Small", 500), ("Medium", 2000), ("Large", 5000)]),
   ("Power BI", [("Small", 200), ("Medium", 1000), ("Large", 3000)]),
   ("Sigma", [("Small", 300), ("Medium", 1500), ("Large", 4000)]),
   ("dbt", [("Small", 100), ("Medium", 500), ("Large", 2000)]),
   ("Snowflake", [("Small", 300), ("Medium", 2000), ("Large", 8000)]),
   ("Databricks", [("Small", 500), ("Medium", 2500), ("Large", 9000)]),
   ("ADF", [("Small", 100), ("Medium", 800), ("Large", 2500)]),
   ("Tableau", [("Small", 300), ("Medium", 1500), ("Large", 4500)])]

/-- Lookup in an association list with string keys (Python dict access on the
literal matrices above; their keys are distinct). -/
def lookupCost : List (String × α) → String → Option α
  | [], _ => none
  | (k1, v1) :: rest, k => if k1 = k then some v1 else lookupCost rest k

/-- One row of the cost table (`cost_data` entries in app3.py). -/
structure CostRow where
  tool : Json
  category : String
  cost : CostVal

/-- Python `str.capitalize()`: first character upper-cased, the rest
lower-cased (ASCII model). -/
def capitalize (s : String) : String :=
  match s.data with
  | [] => ⟨[]⟩
  | c :: cs => ⟨upperChar c :: cs.map lowerChar⟩

/-- The cost of one extracted tool name (the `if tool_name in TOOL_COSTS`
body of `estimate_tool_costs`): a string name is looked up in the matrix
(unknown names or tiers yield the sentinel), a non-string hashable name is
simply not in the dict, and an unhashable (list/dict) name raises
`TypeError` on the membership test. -/
def costOfName (tool_name : Json) (usage_tier : String) : Except PyError CostVal :=
  match tool_name with
  | .str name =>
    match lookupCost TOOL_COSTS name with
    | some tiers =>
      match lookupCost tiers usage_tier with
      | some c => .ok (CostVal.price c)
      | none => .ok CostVal.na
    | none => .ok CostVal.na
  | .arr _ => .error PyError.typeError
  | .obj _ => .error PyError.typeError
  | _ => .ok CostVal.na

/-- `estimate_tool_costs` (app3.py lines 89-102): one row per suggestion
entry, in iteration order; `tool_info.get("tool")` raises on a non-dict
value, and unknown tool/tier pairs resolve silently to the `"N/A"`
sentinel. -/
def estimate_tool_costs (tool_suggestions : List (String × Json)) (usage_tier : String) :
    Except PyError (List CostRow) :=
  match tool_suggestions with
  | [] => .ok []
  | item :: rest =>
    match pyGet item.2 "tool" Json.null with
    | .error e => .error e
    | .ok tool_name =>
      match costOfName tool_name usage_tier with
      | .error e => .error e
      | .ok cost =>
        match estimate_tool_costs rest usage_tier with
        | .error e => .error e
        | .ok rows =>
          .ok ({ tool := tool_name, category := capitalize item.1, cost := cost } :: rows)

/-- The claim's cost rule: the static matrix entry when both the tool and
the tier are present, the `"N/A"` sentinel otherwise. -/
def costSpec (tool tier : String) : CostVal :=
  match lookupCost TOOL_COSTS tool with
  | some tiers =>
    match lookupCost tiers tier with
    | some c => CostVal.price c
    | none => CostVal.na
  | none => CostVal.na

/-- Whether an `Except` computation finished without raising. -/
def exceptIsOk : Except PyError α → Bool
  | .ok _ => true
  | .error _ => false

/-! ## Typed suggestions and the submit handlers -/

/-- The well-formed three-key suggestion record described by the spec's data
model (`ingestion` / `transformation` / `visualization`, one tool name
each). -/
structure ToolSuggestion where
  ingestion : String
  transformation : String
  visualization : String

/-- The JSON value of a well-formed `ToolSuggestion`, in the reply shape the
prompt requests. -/
def ToolSuggestion.toJson (t : ToolSuggestion) : Json :=
  Json.obj
    [("ingestion", Json.obj [("tool", Json.str t.ingestion)]),
     ("transformation", Json.obj [("tool", Json.str t.transformation)]),
     ("visualization", Json.obj [("tool", Json.str t.visualization)])]

/-- The per-request refresh configuration (spec: RefreshProfile). -/
structure RefreshDetails where
  historical_load : Nat
  monthly_increase : Nat
  datasets : Nat
  daily_refresh : Nat
  three_hour_refresh : Nat
  hourly_refresh : Nat
  real_time_refresh : Nat
deriving DecidableEq

/-- Outcome of a submit-button press before any oracle interaction: either a
validation error (the request stops, nothing is rendered, the oracle is not
called) or the request proceeds to the oracle with the parsed configuration
and the custom requirement. -/
inductive SubmitOutcome where
  | error (msg : String) : SubmitOutcome
  | proceed (details : RefreshDetails) (custom_requirement : String) : SubmitOutcome
deriving DecidableEq

/-- Python `str.strip()` on a `String`. -/
def pyStrip (s : String) : String := ⟨stripEnds s.data⟩

/-- The module-level submit handler of app3.py (lines 147-172): the seven
text fields are parsed with `parse_number_input(...) or 0` before the button
check; the mandatory-field check then requires a non-empty source selection,
truthy (non-zero) historical load, monthly increase and dataset count, and a
non-blank custom requirement. -/
def app3_submit (data_sources : List String)
    (historical_load_input monthly_increase_input datasets_input
     daily_refresh_input three_hour_refresh_input hourly_refresh_input
     real_time_refresh_input : String) (custom_requirement : String) : SubmitOutcome :=
  let historical_load := parse_or_zero historical_load_input.data
  let monthly_increase := parse_or_zero monthly_increase_input.data
  let datasets := parse_or_zero datasets_input.data
  let daily_refresh := parse_or_zero daily_refresh_input.data
  let three_hour_refresh := parse_or_zero three_hour_refresh_input.data
  let hourly_refresh := parse_or_zero hourly_refresh_input.data
  let real_time_refresh := parse_or_zero real_time_refresh_input.data
  if data_sources = [] then
    .error "❌ Please select at least one data source."
  else if historical_load = 0 ∨ monthly_increase = 0 ∨ datasets = 0 then
    .error "❌ Please fill out all dataset configuration fields."
  else if (pyStrip custom_requirement).data = [] then
    .error "❌ Please describe your custom requirement."
  else
    .proceed
      ⟨historical_load, monthly_increase, datasets, daily_refresh,
       three_hour_refresh, hourly_refresh, real_time_refresh⟩
      custom_requirement

/-- The form-submission handler of app4.py (lines 166-190): the check is on
the raw input strings (all seven must be non-empty), and parsing happens only
after validation. -/
def app4_submit (data_sources : List String) (custom_requirement : String)
    (historical_load_input monthly_increase_input datasets_input
     daily_refresh_input three_hour_refresh_input hourly_refresh_input
     real_time_refresh_input : String) : SubmitOutcome :=
  if data_sources = [] then
    .error "❌ Please select at least one data source."
  else if (pyStrip custom_requirement).data = [] then
    .error "❌ Please describe your custom requirement."
  else if historical_load_input.data = [] ∨ monthly_increase_input.data = [] ∨
      datasets_input.data = [] ∨ daily_refresh_input.data = [] ∨
      three_hour_refresh_input.data = [] ∨ hourly_refresh_input.data = [] ∨
      real_time_refresh_input.data = [] then
    .error "❌ Please fill out all dataset configuration fields."
  else
    .proceed
      ⟨parse_or_zero historical_load_input.data,
       parse_or_zero monthly_increase_input.data,
       parse_or_zero datasets_input.data,
       parse_or_zero daily_refresh_input.data,
       parse_or_zero three_hour_refresh_input.data,
       parse_or_zero hourly_refresh_input.data,
       parse_or_zero real_time_refresh_input.data⟩
      custom_requirement

/-! ## Helper lemmas: character classes and takeWhile/dropWhile -/

theorem space_not_digit {c : Char} (h : isPySpace c = true) : isDigitChar c = false := by
  simp only [isPySpace, Bool.or_eq_true, beq_iff_eq] at h
  rcases h with ((((rfl | rfl) | rfl) | rfl) | rfl) | rfl <;> decide

theorem space_not_dot {c : Char} (h : isPySpace c = true) : ¬(c = '.') := by
  intro he
  rw [he] at h
  exact absurd h (by decide)

theorem lower_not_digit {c : Char} (h : isAsciiLower c = true) : isDigitChar c = false := by
  simp only [isAsciiLower, Bool.and_eq_true, decide_eq_true_eq] at h
  cases hb : isDigitChar c with
  | false => rfl
  | true =>
    simp only [isDigitChar, Bool.and_eq_true, decide_eq_true_eq] at hb
    omega

theorem lower_not_dot {c : Char} (h : isAsciiLower c = true) : ¬(c = '.') := by
  intro he
  rw [he] at h
  exact absurd h (by decide)

theorem lower_not_space {c : Char} (h : isAsciiLower c = true) : isPySpace c = false := by
  cases hb : isPySpace c with
  | false => rfl
  | true =>
    simp only [isPySpace, Bool.or_eq_true, beq_iff_eq] at hb
    rcases hb with ((((rfl | rfl) | rfl) | rfl) | rfl) | rfl <;> revert h <;> decide

theorem takeWhile_all {p : Char → Bool} :
    ∀ l : List Char, (∀ c ∈ l, p c = true) → l.takeWhile p = l := by
  intro l h
  induction l with
  | nil => rfl
  | cons c cs ih =>
    rw [List.takeWhile_cons_of_pos (h c (by simp))]
    rw [ih (fun x hx => h x (by simp [hx]))]

theorem takeWhile_head_neg {p : Char → Bool} (r : List Char)
    (h : ∀ c, r.head? = some c → p c = false) : r.takeWhile p = [] := by
  cases r with
  | nil => rfl
  | cons c rest =>
    rw [List.takeWhile_cons_of_neg]
    simp [h c rfl]

theorem dropWhile_head_neg {p : Char → Bool} (r : List Char)
    (h : ∀ c, r.head? = some c → p c = false) : r.dropWhile p = r := by
  cases r with
  | nil => rfl
  | cons c rest =>
    rw [List.dropWhile_cons_of_neg]
    simp [h c rfl]

theorem takeWhile_append_of {p : Char → Bool} (l r : List Char)
    (hl : ∀ c ∈ l, p c = true) (hr : ∀ c, r.head? = some c → p c = false) :
    (l ++ r).takeWhile p = l := by
  induction l with
  | nil => simpa using takeWhile_head_neg r hr
  | cons c cs ih =>
    rw [List.cons_append, List.takeWhile_cons_of_pos (hl c (by simp))]
    rw [ih (fun x hx => hl x (by simp [hx]))]

theorem dropWhile_append_of {p : Char → Bool} (l r : List Char)
    (hl : ∀ c ∈ l, p c = true) (hr : ∀ c, r.head? = some c → p c = false) :
    (l ++ r).dropWhile p = r := by
  induction l with
  | nil => simpa using dropWhile_head_neg r hr
  | cons c cs ih =>
    rw [List.cons_append, List.dropWhile_cons_of_pos (hl c (by simp))]
    exact ih (fun x hx => hl x (by simp [hx]))

/-- The head of the whitespace-then-unit tail is never a digit. -/
theorem head_sp_u_not_digit (sp u : List Char)
    (hsp : ∀ c ∈ sp, isPySpace c = true) (hu : ∀ c ∈ u, isAsciiLower c = true) :
    ∀ c, ((sp ++ u).head? = some c) → isDigitChar c = false := by
  intro c h
  cases sp with
  | cons a sp2 =>
    simp only [List.cons_append, List.head?_cons, Option.some.injEq] at h
    subst h
    exact space_not_digit (hsp a (by simp))
  | nil =>
    cases u with
    | nil => simp at h
    | cons b u2 =>
      simp only [List.nil_append, List.head?_cons, Option.some.injEq] at h
      subst h
      exact lower_not_digit (hu b (by simp))

/-! ## Helper lemmas: the binary64 model is exact below 2^53 -/

theorem bitLenAux_zero (f : Nat) : bitLenAux f 0 = 0 := by
  cases f <;> simp [bitLenAux]

theorem bitLenAux_spec : ∀ f n : Nat, n < 2 ^ f →
    n < 2 ^ bitLenAux f n ∧ (0 < n → 2 ^ (bitLenAux f n - 1) ≤ n ∧ 0 < bitLenAux f n) := by
  intro f
  induction f with
  | zero =>
    intro n h
    simp only [pow_zero, Nat.lt_one_iff] at h
    subst h
    exact ⟨by simp [bitLenAux], fun h0 => absurd h0 (by simp)⟩
  | succ f ih =>
    intro n h
    by_cases h0 : n = 0
    · subst h0
      exact ⟨by rw [bitLenAux_zero]; exact Nat.one_pos, fun h0 => absurd h0 (by simp)⟩
    · have hrec : bitLenAux (f + 1) n = bitLenAux f (n / 2) + 1 := by
        simp [bitLenAux, h0]
      have hhalf : n / 2 < 2 ^ f := by
        have h2 : 2 ^ (f + 1) = 2 ^ f * 2 := by ring
        omega
      obtain ⟨iu, il⟩ := ih (n / 2) hhalf
      rw [hrec]
      constructor
      · have h2 : 2 ^ (bitLenAux f (n / 2) + 1) = 2 ^ (bitLenAux f (n / 2)) * 2 := by ring
        omega
      · intro _
        refine ⟨?_, by omega⟩
        by_cases h1 : n / 2 = 0
        · rw [h1, bitLenAux_zero]
          simpa using Nat.pos_of_ne_zero h0
        · obtain ⟨la, lb⟩ := il (Nat.pos_of_ne_zero h1)
          have h2 : 2 ^ (bitLenAux f (n / 2) + 1 - 1) = 2 ^ (bitLenAux f (n / 2) - 1) * 2 := by
            rw [← pow_succ]
            congr 1
            omega
          omega

theorem bitLen_spec {n : Nat} (h : 0 < n) :
    2 ^ (bitLen n - 1) ≤ n ∧ n < 2 ^ bitLen n ∧ 0 < bitLen n := by
  obtain ⟨hu, hl⟩ := bitLenAux_spec n n (Nat.lt_two_pow n)
  obtain ⟨ha, hb⟩ := hl h
  exact ⟨ha, hu, hb⟩

theorem bitLen_one : bitLen 1 = 1 := rfl

theorem bitLen_eq {n k : Nat} (hk : 0 < k) (h1 : 2 ^ (k - 1) ≤ n) (h2 : n < 2 ^ k) :
    bitLen n = k := by
  have hn : 0 < n := lt_of_lt_of_le (Nat.two_pow_pos (k - 1)) h1
  obtain ⟨l1, l2, l3⟩ := bitLen_spec hn
  have a1 : bitLen n - 1 < k :=
    (Nat.pow_lt_pow_iff_right (by norm_num)).mp (lt_of_le_of_lt l1 h2)
  have a2 : k - 1 < bitLen n :=
    (Nat.pow_lt_pow_iff_right (by norm_num)).mp (lt_of_le_of_lt h1 l2)
  omega

theorem bitLen_mul_two_pow {x : Nat} (hx : 0 < x) (t : Nat) :
    bitLen (x * 2 ^ t) = bitLen x + t := by
  obtain ⟨l1, l2, l3⟩ := bitLen_spec hx
  apply bitLen_eq (by omega)
  · have he : 2 ^ (bitLen x + t - 1) = 2 ^ (bitLen x - 1) * 2 ^ t := by
      rw [← pow_add]
      congr 1
      omega
    rw [he]
    exact Nat.mul_le_mul_right _ l1
  · have he : 2 ^ (bitLen x + t) = 2 ^ bitLen x * 2 ^ t := by rw [← pow_add]
    rw [he]
    exact Nat.mul_lt_mul_of_lt_of_le l2 (le_refl _) (Nat.two_pow_pos t)

theorem bitLen_two_pow (t : Nat) : bitLen (2 ^ t) = t + 1 := by
  have h := bitLen_mul_two_pow (x := 1) (by norm_num) t
  simpa [bitLen_one, Nat.add_comm] using h

theorem bitLen_le_of_lt {V k : Nat} (hV : 0 < V) (h : V < 2 ^ k) : bitLen V ≤ k := by
  obtain ⟨l1, l2, l3⟩ := bitLen_spec hV
  by_contra hc
  push_neg at hc
  have : 2 ^ k ≤ 2 ^ (bitLen V - 1) := Nat.pow_le_pow_right (by norm_num) (by omega)
  omega

/-- Rounding an exact quotient does not move it. -/
theorem rndHalfEven_exact {n d : Nat} (hd : 0 < d) (hdvd : d ∣ n) :
    rndHalfEven n d = n / d := by
  have hr : n % d = 0 := Nat.mod_eq_zero_of_dvd hdvd
  simp [rndHalfEven, hr, hd]

theorem qLog2_mul_pow {V : Nat} (t : Nat) (hV : 0 < V) :
    qLog2 (V * 2 ^ t) (2 ^ t) = (bitLen V : Int) - 1 := by
  obtain ⟨l1, l2, l3⟩ := bitLen_spec hV
  have hb1 : bitLen (V * 2 ^ t) = bitLen V + t := bitLen_mul_two_pow hV t
  have hb2 : bitLen (2 ^ t) = t + 1 := bitLen_two_pow t
  have hc : ((bitLen (V * 2 ^ t) : Int) - (bitLen (2 ^ t) : Int)) = (bitLen V : Int) - 1 := by
    rw [hb1, hb2]
    push_cast
    ring
  have hge : qGePow2 (V * 2 ^ t) (2 ^ t)
      ((bitLen (V * 2 ^ t) : Int) - (bitLen (2 ^ t) : Int)) = true := by
    rw [hc, qGePow2, if_pos (by omega : (0:Int) ≤ (bitLen V : Int) - 1)]
    have ht2 : ((bitLen V : Int) - 1).toNat = bitLen V - 1 := by omega
    rw [ht2]
    have hle : 2 ^ t * 2 ^ (bitLen V - 1) ≤ V * 2 ^ t := by
      rw [Nat.mul_comm (2 ^ t)]
      exact Nat.mul_le_mul_right _ l1
    simpa using hle
  rw [qLog2, hge]
  simp [hc]

/-- A value of at most 53 bits, scaled by any power of two, rounds to
itself. -/
theorem roundFloat_exact {V : Nat} (t : Nat) (hV : 0 < V) (hV53 : V < 2 ^ 53) :
    roundFloat (V * 2 ^ t) (2 ^ t) = (V * 2 ^ (53 - bitLen V), (bitLen V : Int) - 53) := by
  obtain ⟨l1, l2, l3⟩ := bitLen_spec hV
  have hb53 : bitLen V ≤ 53 := bitLen_le_of_lt hV hV53
  have hq : qLog2 (V * 2 ^ t) (2 ^ t) = (bitLen V : Int) - 1 := qLog2_mul_pow t hV
  rw [roundFloat, hq]
  rcases Nat.lt_or_ge (bitLen V) 53 with hlt | hge
  · have hs : ¬((0:Int) ≤ (bitLen V : Int) - 1 - 52) := by omega
    rw [if_neg hs]
    have ht : ((52 : Int) - ((bitLen V : Int) - 1)).toNat = 53 - bitLen V := by omega
    rw [ht]
    have hdvd : 2 ^ t ∣ V * 2 ^ t * 2 ^ (53 - bitLen V) :=
      Dvd.dvd.mul_right (Dvd.intro_left V rfl) _
    have hdiv : V * 2 ^ t * 2 ^ (53 - bitLen V) / 2 ^ t = V * 2 ^ (53 - bitLen V) := by
      rw [Nat.mul_comm V (2 ^ t), Nat.mul_assoc]
      exact Nat.mul_div_cancel_left _ (Nat.two_pow_pos t)
    rw [rndHalfEven_exact (Nat.two_pow_pos t) hdvd, hdiv]
    simp only [Prod.mk.injEq]
    exact ⟨trivial, by omega⟩
  · have h53 : bitLen V = 53 := le_antisymm hb53 hge
    have hs : (0:Int) ≤ (bitLen V : Int) - 1 - 52 := by omega
    rw [if_pos hs]
    have ht : ((bitLen V : Int) - 1 - 52).toNat = 0 := by omega
    rw [ht]
    have hdvd : 2 ^ t * 2 ^ 0 ∣ V * 2 ^ t := by
      rw [pow_zero, mul_one]
      exact Dvd.intro_left V rfl
    rw [rndHalfEven_exact (by positivity) hdvd]
    have hdiv : V * 2 ^ t / (2 ^ t * 2 ^ 0) = V := by
      simp [Nat.mul_div_cancel _ (Nat.two_pow_pos t)]
    rw [hdiv]
    simp only [Prod.mk.injEq]
    refine ⟨?_, by omega⟩
    rw [h53]
    norm_num

theorem roundFloat_exact_one {V : Nat} (hV : 0 < V) (hV53 : V < 2 ^ 53) :
    roundFloat V 1 = (V * 2 ^ (53 - bitLen V), (bitLen V : Int) - 53) := by
  have h := roundFloat_exact 0 hV hV53
  simpa using h

theorem dyadicFloor_round {V : Nat} (hV : 0 < V) (hV53 : V < 2 ^ 53) :
    dyadicFloor (V * 2 ^ (53 - bitLen V)) ((bitLen V : Int) - 53) = V := by
  have hb53 : bitLen V ≤ 53 := bitLen_le_of_lt hV hV53
  rcases Nat.lt_or_ge (bitLen V) 53 with hlt | hge
  · have hs : ¬((0:Int) ≤ (bitLen V : Int) - 53) := by omega
    rw [dyadicFloor, if_neg hs]
    have ht : (-((bitLen V : Int) - 53)).toNat = 53 - bitLen V := by omega
    rw [ht]
    exact Nat.mul_div_cancel _ (Nat.two_pow_pos _)
  · have h53 : bitLen V = 53 := le_antisymm hb53 hge
    have hs : (0:Int) ≤ (bitLen V : Int) - 53 := by omega
    rw [dyadicFloor, if_pos hs]
    have ht : ((bitLen V : Int) - 53).toNat = 0 := by omega
    rw [ht, h53]
    norm_num

/-- Double arithmetic in `int(float(A) * M)` is exact whenever the integer
product fits in 53 bits. -/
theorem pyIntOfFloatProd_exact {A M : Nat} (hM : 0 < M) (h : A * M < 2 ^ 53) :
    pyIntOfFloatProd A 1 M = A * M := by
  by_cases hA : A = 0
  · subst hA
    simp [pyIntOfFloatProd]
  have hApos : 0 < A := Nat.pos_of_ne_zero hA
  have hA53 : A < 2 ^ 53 := lt_of_le_of_lt (Nat.le_mul_of_pos_right A hM) h
  have hVpos : 0 < A * M := Nat.mul_pos hApos hM
  have hb53 : bitLen A ≤ 53 := bitLen_le_of_lt hApos hA53
  have hf1 : roundFloat A 1 = (A * 2 ^ (53 - bitLen A), (bitLen A : Int) - 53) :=
    roundFloat_exact_one hApos hA53
  rw [pyIntOfFloatProd, if_neg hA, hf1]
  rcases Nat.lt_or_ge (bitLen A) 53 with hlt | hge
  · have hs : ¬((0:Int) ≤ ((A * 2 ^ (53 - bitLen A), (bitLen A : Int) - 53) : Nat × Int).2) := by
      show ¬((0:Int) ≤ (bitLen A : Int) - 53)
      omega
    rw [if_neg hs]
    show dyadicFloor (roundFloat (A * 2 ^ (53 - bitLen A) * M)
        (2 ^ (-((bitLen A : Int) - 53)).toNat)).1
      (roundFloat (A * 2 ^ (53 - bitLen A) * M) (2 ^ (-((bitLen A : Int) - 53)).toNat)).2
      = A * M
    have ht : (-((bitLen A : Int) - 53)).toNat = 53 - bitLen A := by omega
    have harg : A * 2 ^ (53 - bitLen A) * M = (A * M) * 2 ^ (53 - bitLen A) := by ring
    rw [ht, harg, roundFloat_exact (53 - bitLen A) hVpos h]
    exact dyadicFloor_round hVpos h
  · have h53 : bitLen A = 53 := le_antisymm hb53 hge
    have hs : (0:Int) ≤ ((A * 2 ^ (53 - bitLen A), (bitLen A : Int) - 53) : Nat × Int).2 := by
      show (0:Int) ≤ (bitLen A : Int) - 53
      omega
    rw [if_pos hs]
    show dyadicFloor (roundFloat (A * 2 ^ (53 - bitLen A) * M
        * 2 ^ ((bitLen A : Int) - 53).toNat) 1).1
      (roundFloat (A * 2 ^ (53 - bitLen A) * M * 2 ^ ((bitLen A : Int) - 53).toNat) 1).2
      = A * M
    have harg : A * 2 ^ (53 - bitLen A) * M * 2 ^ ((bitLen A : Int) - 53).toNat = A * M := by
      have htn : ((bitLen A : Int) - 53).toNat = 0 := by omega
      rw [htn, h53]
      norm_num
    rw [harg, roundFloat_exact_one hVpos h]
    exact dyadicFloor_round hVpos h

/-- Shape lemma for `parse_number_input`: if the normalised text is a digit
run, an optional fraction, optional whitespace and an optional run of
lower-case letters, the parse succeeds with the truncated scaled product. -/
theorem parse_shape (s d1 d2 sp u : List Char) (useFrac : Bool)
    (hnorm : normalizeInput s = d1 ++ ((if useFrac then '.' :: d2 else []) ++ (sp ++ u)))
    (hd1ne : d1 ≠ []) (hd1 : ∀ c ∈ d1, isDigitChar c = true)
    (hd2ne : useFrac = true → d2 ≠ [])
    (hd2e : useFrac = false → d2 = [])
    (hd2 : ∀ c ∈ d2, isDigitChar c = true)
    (hsp : ∀ c ∈ sp, isPySpace c = true)
    (hu : ∀ c ∈ u, isAsciiLower c = true) :
    parse_number_input s =
      some (pyIntOfFloatProd (digitsVal d1 * 10 ^ d2.length + digitsVal d2)
            (10 ^ d2.length) (unitMultiplier u)) := by
  have hdrop_sp : (sp ++ u).dropWhile isPySpace = u := by
    apply dropWhile_append_of sp u hsp
    intro c h
    cases u with
    | nil => simp at h
    | cons b u2 =>
      simp only [List.head?_cons, Option.some.injEq] at h
      subst h
      exact lower_not_space (hu b (by simp))
  have htake_u : u.takeWhile isAsciiLower = u := takeWhile_all u hu
  cases useFrac with
  | false =>
    have hd2nil : d2 = [] := hd2e rfl
    subst hd2nil
    simp only [Bool.false_eq_true, if_false, List.nil_append] at hnorm
    have hhead := head_sp_u_not_digit sp u hsp hu
    have htake : (d1 ++ (sp ++ u)).takeWhile isDigitChar = d1 :=
      takeWhile_append_of d1 (sp ++ u) hd1 hhead
    have hdrop : (d1 ++ (sp ++ u)).dropWhile isDigitChar = sp ++ u :=
      dropWhile_append_of d1 (sp ++ u) hd1 hhead
    have hfrac : fracSplit (sp ++ u) = ([], sp ++ u) := by
      cases sp with
      | cons a sp2 =>
        have := space_not_dot (hsp a (by simp))
        simp [fracSplit, this]
      | nil =>
        cases u with
        | nil => rfl
        | cons b u2 =>
          have := lower_not_dot (hu b (by simp))
          simp [fracSplit, this]
    simp only [parse_number_input, hnorm, htake, hdrop, hfrac, if_neg hd1ne,
      hdrop_sp, htake_u]
  | true =>
    have hd2cons : d2 ≠ [] := hd2ne rfl
    simp only [if_true, List.cons_append, List.append_assoc] at hnorm
    have hhead : ∀ c, (('.' :: (d2 ++ (sp ++ u))).head? = some c) → isDigitChar c = false := by
      intro c h
      simp only [List.head?_cons, Option.some.injEq] at h
      subst h
      decide
    have htake : (d1 ++ ('.' :: (d2 ++ (sp ++ u)))).takeWhile isDigitChar = d1 :=
      takeWhile_append_of d1 _ hd1 hhead
    have hdrop : (d1 ++ ('.' :: (d2 ++ (sp ++ u)))).dropWhile isDigitChar
        = '.' :: (d2 ++ (sp ++ u)) :=
      dropWhile_append_of d1 _ hd1 hhead
    have htake2 : (d2 ++ (sp ++ u)).takeWhile isDigitChar = d2 :=
      takeWhile_append_of d2 (sp ++ u) hd2 (head_sp_u_not_digit sp u hsp hu)
    have hdrop2 : (d2 ++ (sp ++ u)).dropWhile isDigitChar = sp ++ u :=
      dropWhile_append_of d2 (sp ++ u) hd2 (head_sp_u_not_digit sp u hsp hu)
    have hfrac : fracSplit ('.' :: (d2 ++ (sp ++ u))) = (d2, sp ++ u) := by
      simp [fracSplit, htake2, hdrop2, hd2cons]
    have hnorm2 : normalizeInput s = d1 ++ ('.' :: (d2 ++ (sp ++ u))) := by
      rw [hnorm]
    simp only [parse_number_input, hnorm2, htake, hdrop, hfrac, if_neg hd1ne,
      hdrop_sp, htake_u]

/-- `parse_number_input` fails exactly when the digit run at the start of the
normalised text is empty. -/
theorem parse_none_iff_take (s : List Char) :
    parse_number_input s = none ↔ (normalizeInput s).takeWhile isDigitChar = [] := by
  simp only [parse_number_input]
  split
  · next h => simp [h]
  · next h => simp [h]

/-- An empty leading digit run is the same as not starting with a digit. -/
theorem take_nil_iff_start (l : List Char) :
    l.takeWhile isDigitChar = [] ↔ startsWithDigit l = false := by
  cases l with
  | nil => simp [startsWithDigit]
  | cons c r =>
    cases hc : isDigitChar c with
    | true =>
      rw [List.takeWhile_cons_of_pos hc]
      simp [startsWithDigit, hc]
    | false =>
      rw [List.takeWhile_cons_of_neg (by simp [hc])]
      simp [startsWithDigit, hc]

/-! ## Claim theorems -/

/-- C6: `parse_number_input` returns no value exactly when the normalised
text does not begin with a digit (so parse("abc") = None), and an
unrecognised unit word is not an error: the multiplier silently falls back
to 1, so parse("3 widgets") = 3; in general a digit run followed by an
unrecognised word parses to the digit run's value whenever that value is
below 2^53 (the double-exact range; larger values round, see C1). -/
theorem C6_parse_failure_and_fallback :
    (∀ s, parse_number_input s = none ↔ startsWithDigit (normalizeInput s) = false) ∧
    parse_number_input "abc".data = none ∧
    parse_number_input "3 widgets".data = some 3 ∧
    (∀ u, ¬(u = "k".data) → ¬(u = "thousand".data) → ¬(u = "m".data) →
        ¬(u = "million".data) → ¬(u = "b".data) → ¬(u = "billion".data) →
        unitMultiplier u = 1) ∧
    (∀ s d1 sp u,
        normalizeInput s = d1 ++ (sp ++ u) →
        d1 ≠ [] → (∀ c ∈ d1, isDigitChar c = true) →
        (∀ c ∈ sp, isPySpace c = true) → (∀ c ∈ u, isAsciiLower c = true) →
        unitMultiplier u = 1 →
        digitsVal d1 < 2 ^ 53 →
        parse_number_input s = some (digitsVal d1)) := by
  refine ⟨?_, by decide, by decide, ?_, ?_⟩
  · intro s
    rw [parse_none_iff_take, take_nil_iff_start]
  · intro u h1 h2 h3 h4 h5 h6
    simp only [unitMultiplier]
    rw [if_neg (by tauto), if_neg (by tauto), if_neg (by tauto)]
  · intro s d1 sp u hnorm hd1ne hd1 hsp hu hmul hlt
    have h := parse_shape s d1 [] sp u false (by simpa using hnorm) hd1ne hd1
      (by intro h; cases h) (fun _ => rfl) (by intro c h; cases h) hsp hu
    rw [h]
    have he : digitsVal d1 * 10 ^ List.length ([] : List Char) + digitsVal []
        = digitsVal d1 := by
      simp [digitsVal]
    have he2 : (10 : Nat) ^ List.length ([] : List Char) = 1 := by
      simp
    rw [he, he2, hmul, pyIntOfFloatProd_exact Nat.one_pos (by simpa using hlt)]
    rw [Nat.mul_one]

/-- Witness for C6: the unrecognised-unit fallback applied to "7 cats". -/
theorem C6_parse_failure_and_fallback_witness :
    unitMultiplier ['x'] = 1 ∧ parse_number_input "7 cats".data = some (digitsVal ['7']) :=
  ⟨C6_parse_failure_and_fallback.2.2.2.1 ['x'] (by decide) (by decide) (by decide)
      (by decide) (by decide) (by decide),
   C6_parse_failure_and_fallback.2.2.2.2 "7 cats".data ['7'] [' '] "cats".data
      (by decide) (by decide) (by decide) (by decide) (by decide) (by decide) (by decide)⟩

/-- C7 counterexample: a submission to app3 whose daily-refresh
dataset-configuration field is blank nevertheless proceeds to the oracle
call (with the blank field silently parsed to 0), so a request with an
absent dataset-configuration value is not always rejected. -/
theorem C7_counterexample :
    app3_submit ["Google Ads"] "20 million" "50 thousand" "20" "" "5" "3" "2"
        "Real-time analytics"
      = SubmitOutcome.proceed ⟨20000000, 50000, 20, 0, 5, 3, 2⟩
          "Real-time analytics" := by
  decide

/-- C7 (amended): a submission is rejected with an error message before any
oracle call exactly when no data source is selected, the custom requirement
is blank, or a mandatory dataset-configuration value is missing — in app3
the parsed-or-zero historical load, monthly increase or dataset count being
0, in app4 any of the seven raw configuration strings being empty.  Blank
refresh-cadence fields in app3 are not rejected and silently default to 0. -/
theorem C7_validation_amended :
    (∀ ds hl mi dsn dr thr hr rtr cr,
        (∃ m, app3_submit ds hl mi dsn dr thr hr rtr cr = SubmitOutcome.error m) ↔
          (ds = [] ∨ parse_or_zero hl.data = 0 ∨ parse_or_zero mi.data = 0 ∨
           parse_or_zero dsn.data = 0 ∨ (pyStrip cr).data = [])) ∧
    (∀ ds cr hl mi dsn dr thr hr rtr,
        (∃ m, app4_submit ds cr hl mi dsn dr thr hr rtr = SubmitOutcome.error m) ↔
          (ds = [] ∨ (pyStrip cr).data = [] ∨ hl.data = [] ∨ mi.data = [] ∨
           dsn.data = [] ∨ dr.data = [] ∨ thr.data = [] ∨ hr.data = [] ∨
           rtr.data = [])) := by
  constructor
  · intro ds hl mi dsn dr thr hr rtr cr
    by_cases h1 : ds = []
    · simp [app3_submit, h1]
    · by_cases h2 : parse_or_zero hl.data = 0 ∨ parse_or_zero mi.data = 0 ∨
          parse_or_zero dsn.data = 0
      · simp [app3_submit, h1, h2]
        tauto
      · push_neg at h2
        obtain ⟨h2a, h2b, h2c⟩ := h2
        by_cases h3 : (pyStrip cr).data = []
        · simp [app3_submit, h1, h2a, h2b, h2c, h3]
        · simp [app3_submit, h1, h2a, h2b, h2c, h3]
  · intro ds cr hl mi dsn dr thr hr rtr
    by_cases h1 : ds = []
    · simp [app4_submit, h1]
    · by_cases h2 : (pyStrip cr).data = []
      · simp [app4_submit, h1, h2]
      · by_cases h3 : hl.data = [] ∨ mi.data = [] ∨ dsn.data = [] ∨ dr.data = [] ∨
            thr.data = [] ∨ hr.data = [] ∨ rtr.data = []
        · simp [app4_submit, h1, h2, h3]
        · push_neg at h3
          obtain ⟨h3a, h3b, h3c, h3d, h3e, h3f, h3g⟩ := h3
          simp [app4_submit, h1, h2, h3a, h3b, h3c, h3d, h3e, h3f, h3g]

/-- C9: a reply that parses to a falsy JSON value (empty object, 0, empty
array, empty string, false, null) makes `generate_flowchart_and_json` return
the pair (None, None), exactly as a reply that does not parse at all does,
so the two situations are indistinguishable to the caller. -/
theorem C9_falsy_reply_like_parse_failure :
    (∀ ds r j, json_loads r = some j → j.truthy = false →
        generate_flowchart_and_json ds r = .ok (none, none)) ∧
    (∀ ds r, json_loads r = none →
        generate_flowchart_and_json ds r = .ok (none, none)) ∧
    json_loads "\x7b\x7d" = some (Json.obj []) ∧
    generate_flowchart_and_json ["Google Ads"] "\x7b\x7d" = .ok (none, none) ∧
    json_loads "0" = some (Json.num 0 0) ∧
    generate_flowchart_and_json ["Google Ads"] "0" = .ok (none, none) ∧
    json_loads "[]" = some (Json.arr []) ∧
    generate_flowchart_and_json ["Google Ads"] "[]" = .ok (none, none) ∧
    json_loads "\"\"" = some (Json.str "") ∧
    generate_flowchart_and_json ["Google Ads"] "\"\"" = .ok (none, none) ∧
    json_loads "false" = some (Json.bool false) ∧
    generate_flowchart_and_json ["Google Ads"] "false" = .ok (none, none) ∧
    json_loads "null" = some Json.null ∧
    generate_flowchart_and_json ["Google Ads"] "null" = .ok (none, none) := by
  refine ⟨?_, ?_, by rfl, by rfl, by rfl, by rfl, by rfl, by rfl, by rfl, by rfl,
    by rfl, by rfl, by rfl, by rfl⟩
  · intro ds r j hj ht
    simp [generate_flowchart_and_json, get_tool_suggestions, hj, ht]
  · intro ds r hr
    simp [generate_flowchart_and_json, get_tool_suggestions, hr]

/-- Witness for C9: the falsy-reply branch applied to the reply "0". -/
theorem C9_falsy_reply_like_parse_failure_witness :
    generate_flowchart_and_json ["Google Ads"] "0" = .ok (none, none) :=
  C9_falsy_reply_like_parse_failure.1 ["Google Ads"] "0" (Json.num 0 0) rfl rfl

/-- C10: a successful parse of 0 is indistinguishable from a parse failure
under the caller pattern `parse_number_input(x) or 0`: both yield 0, and in
app3 a dataset-count field containing "0" is rejected by the
mandatory-field check exactly as a malformed field is. -/
theorem C10_parsed_zero_like_missing :
    (∀ t, parse_number_input t = none → parse_or_zero t = 0) ∧
    parse_number_input "0".data = some 0 ∧
    parse_or_zero "0".data = 0 ∧
    parse_or_zero "abc".data = 0 ∧
    app3_submit ["Google Ads"] "20 million" "50 thousand" "0" "10" "5" "3" "2"
        "Need a scalable pipeline"
      = app3_submit ["Google Ads"] "20 million" "50 thousand" "abc" "10" "5" "3" "2"
        "Need a scalable pipeline" ∧
    app3_submit ["Google Ads"] "20 million" "50 thousand" "0" "10" "5" "3" "2"
        "Need a scalable pipeline"
      = SubmitOutcome.error "❌ Please fill out all dataset configuration fields." := by
  refine ⟨?_, by decide, by decide, by decide, by decide, by decide⟩
  intro t h
  simp [parse_or_zero, h]

/-- Witness for C10: the or-zero collapse applied to the failing input
"oops". -/
theorem C10_parsed_zero_like_missing_witness :
    parse_or_zero "oops".data = 0 :=
  C10_parsed_zero_like_missing.1 "oops".data (by decide)

theorem costOfName_str (name tier : String) :
    costOfName (Json.str name) tier = .ok (costSpec name tier) := by
  cases h1 : lookupCost TOOL_COSTS name with
  | none => simp [costOfName, costSpec, h1]
  | some tiers =>
    cases h2 : lookupCost tiers tier with
    | none => simp [costOfName, costSpec, h1, h2]
    | some c => simp [costOfName, costSpec, h1, h2]

/-- On record-shaped suggestions, `estimate_tool_costs` is the row map. -/
theorem estimate_wellformed (cats : List (String × String)) (tier : String) :
    estimate_tool_costs (cats.map (fun p => (p.1, Json.obj [("tool", Json.str p.2)]))) tier
      = .ok (cats.map (fun p =>
          { tool := Json.str p.2, category := capitalize p.1,
            cost := costSpec p.2 tier })) := by
  induction cats with
  | nil => rfl
  | cons p rest ih =>
    simp [List.map_cons, estimate_tool_costs, pyGet, lookupField, costOfName_str, ih]

/-- C4: on every record-shaped `ToolSuggestion` mapping and every tier,
`estimate_tool_costs` produces exactly one row per suggested category (in
order, with the category label capitalised), whose cost is the static
`TOOL_COSTS` entry when the tool and the tier are both present and the
`"N/A"` sentinel otherwise — never an error; in particular "dbt" at
"Medium" costs 500 and "UnknownTool" at "Medium" is "N/A". -/
theorem C4_cost_estimator_rows :
    (∀ (cats : List (String × String)) (tier : String),
        estimate_tool_costs
            (cats.map (fun p => (p.1, Json.obj [("tool", Json.str p.2)]))) tier
          = .ok (cats.map (fun p =>
              { tool := Json.str p.2, category := capitalize p.1,
                cost := costSpec p.2 tier }))) ∧
    costSpec "dbt" "Medium" = CostVal.price 500 ∧
    costSpec "UnknownTool" "Medium" = CostVal.na ∧
    estimate_tool_costs [("transformation", Json.obj [("tool", Json.str "dbt")])] "Medium"
      = .ok [{ tool := Json.str "dbt", category := "Transformation",
               cost := CostVal.price 500 }] ∧
    estimate_tool_costs [("ingestion", Json.obj [("tool", Json.str "UnknownTool")])] "Medium"
      = .ok [{ tool := Json.str "UnknownTool", category := "Ingestion",
               cost := CostVal.na }] :=
  ⟨estimate_wellformed, by rfl, by rfl, by rfl, by rfl⟩

/-- C5: for every non-empty source selection and every well-formed tool
suggestion, the linear builder produces exactly the four nodes
Data Sources / Ingestion / Transformation / Visualization connected by the
three-edge simple path, with the Data Sources label the newline-join of the
selected names in order. -/
theorem C5_linear_flowchart_shape (ds : List String) (t : ToolSuggestion)
    (_hds : ds ≠ []) :
    buildLinearFlowchart ds t.toJson = .ok
      { nodes := [("Data Sources", String.intercalate "\n" ds),
                  ("Ingestion", t.ingestion ++ " (Ingestion)"),
                  ("Transformation", t.transformation ++ " (Transformation)"),
                  ("Visualization", t.visualization ++ " (Visualization)")],
        edges := [("Data Sources", "Ingestion"), ("Ingestion", "Transformation"),
                  ("Transformation", "Visualization")] } ∧
    (∀ g, buildLinearFlowchart ds t.toJson = .ok g →
        g.nodes.length = 4 ∧ g.edges.length = 3 ∧
        g.nodes.map Prod.fst
          = ["Data Sources", "Ingestion", "Transformation", "Visualization"] ∧
        g.nodes.head? = some ("Data Sources", String.intercalate "\n" ds)) := by
  have h1 : buildLinearFlowchart ds t.toJson = .ok
      { nodes := [("Data Sources", String.intercalate "\n" ds),
                  ("Ingestion", t.ingestion ++ " (Ingestion)"),
                  ("Transformation", t.transformation ++ " (Transformation)"),
                  ("Visualization", t.visualization ++ " (Visualization)")],
        edges := [("Data Sources", "Ingestion"), ("Ingestion", "Transformation"),
                  ("Transformation", "Visualization")] } := by rfl
  refine ⟨h1, ?_⟩
  intro g hg
  rw [h1] at hg
  injection hg with h2
  subst h2
  exact ⟨rfl, rfl, rfl, rfl⟩

/-- Witness for C5 at sources ["A", "B"] and suggestion (X, Y, Z). -/
theorem C5_linear_flowchart_shape_witness :
    buildLinearFlowchart ["A", "B"] (ToolSuggestion.toJson ⟨"X", "Y", "Z"⟩) = .ok
      { nodes := [("Data Sources", "A\nB"), ("Ingestion", "X (Ingestion)"),
                  ("Transformation", "Y (Transformation)"),
                  ("Visualization", "Z (Visualization)")],
        edges := [("Data Sources", "Ingestion"), ("Ingestion", "Transformation"),
                  ("Transformation", "Visualization")] } :=
  (C5_linear_flowchart_shape ["A", "B"] ⟨"X", "Y", "Z"⟩ (by decide)).1

/-- The cross-product against a singleton second layer is one edge per
first-layer item. -/
theorem cross_singleton (f : String → String) (x : String) (ds : List String) :
    layeredCrossEdges (ds.map f) [x] = ds.map (fun s => (f s, x)) := by
  induction ds with
  | nil => rfl
  | cons a rest ih =>
    simp only [List.map_cons, layeredCrossEdges, List.flatMap_cons] at ih ⊢
    simp only [List.map_cons, List.map_nil, List.singleton_append, List.cons.injEq]
    exact ⟨trivial, ih⟩

/-- C3: in the layered diagram the source-to-ingestion edges are the
exhaustive cross-product of the selected-source node list with the ingestion
node list (in app4 the latter is the single `Ingestion Layer` node, so there
is one edge per source); the spec-modelled multi-select cross-product yields
|A|·|B| edges, one for every pair, and in particular 2 sources × 3 ingestion
tools give exactly 6 edges, not 3. -/
theorem C3_layered_cross_product :
    (∀ ds ts g, generate_complex_flowchart ds ts = .ok g →
        g.edges = layeredCrossEdges (ds.map (fun s => "source_" ++ s)) ["Ingestion Layer"]
          ++ complexFixedEdges) ∧
    (∀ A B : List String, (layeredCrossEdges A B).length = A.length * B.length) ∧
    (∀ (A B : List String) (a b : String), a ∈ A → b ∈ B →
        (a, b) ∈ layeredCrossEdges A B) ∧
    layeredCrossEdges ["source_A", "source_B"] ["I1", "I2", "I3"]
      = [("source_A", "I1"), ("source_A", "I2"), ("source_A", "I3"),
         ("source_B", "I1"), ("source_B", "I2"), ("source_B", "I3")] ∧
    (layeredCrossEdges ["source_A", "source_B"] ["I1", "I2", "I3"]).length = 2 * 3 := by
  refine ⟨?_, ?_, ?_, by decide, by decide⟩
  · intro ds ts g hg
    cases h1 : extractTool ts "ingestion" with
    | error e => simp [generate_complex_flowchart, h1] at hg
    | ok ing =>
      cases h2 : extractTool ts "transformation" with
      | error e => simp [generate_complex_flowchart, h1, h2] at hg
      | ok tr =>
        cases h3 : extractTool ts "visualization" with
        | error e => simp [generate_complex_flowchart, h1, h2, h3] at hg
        | ok viz =>
          simp only [generate_complex_flowchart, h1, h2, h3, Except.ok.injEq] at hg
          subst hg
          rw [cross_singleton (fun s => "source_" ++ s) "Ingestion Layer" ds]
  · intro A B
    induction A with
    | nil => simp [layeredCrossEdges]
    | cons a rest ih =>
      simp only [layeredCrossEdges, List.flatMap_cons, List.length_append,
        List.length_map, List.length_cons] at ih ⊢
      rw [ih]
      ring
  · intro A B a b ha hb
    simp only [layeredCrossEdges, List.mem_flatMap, List.mem_map]
    exact ⟨a, ha, b, hb, rfl⟩

/-- Witness for C3: the app4 builder on one source, and membership of a
concrete pair in a 1×2 cross-product. -/
theorem C3_layered_cross_product_witness :
    (Graph.mk
      [("source_A", "A"),
       ("Ingestion Layer", "Kafka\n(Ingestion)"),
       ("Landing Zone", "Landing Zone\n(S3 / Blob Storage)"),
       ("Data Warehouse", "Data Warehouse\n(Redshift / Snowflake)"),
       ("Streaming Layer", "Streaming Layer\n(Kafka / Flink / KSQL)"),
       ("Transformation Layer", "Unknown\n(Transformation)"),
       ("Feature Store", "Feature Store\n(ML Features)"),
       ("BI Layer", "Unknown\n(BI Visualization)"),
       ("Analytics/ML", "Analytics Layer\n(Data Science & ML)"),
       ("Monitoring", "Monitoring & Alerts\n(Elastic / Kibana / Grafana)")]
      (("source_A", "Ingestion Layer") :: complexFixedEdges)).edges
      = layeredCrossEdges ["source_A"] ["Ingestion Layer"] ++ complexFixedEdges ∧
    ("source_A", "I2") ∈ layeredCrossEdges ["source_A"] ["I1", "I2"] :=
  ⟨C3_layered_cross_product.1 ["A"]
      (Json.obj [("ingestion", Json.obj [("tool", Json.str "Kafka")])])
      (Graph.mk
        [("source_A", "A"),
         ("Ingestion Layer", "Kafka\n(Ingestion)"),
         ("Landing Zone", "Landing Zone\n(S3 / Blob Storage)"),
         ("Data Warehouse", "Data Warehouse\n(Redshift / Snowflake)"),
         ("Streaming Layer", "Streaming Layer\n(Kafka / Flink / KSQL)"),
         ("Transformation Layer", "Unknown\n(Transformation)"),
         ("Feature Store", "Feature Store\n(ML Features)"),
         ("BI Layer", "Unknown\n(BI Visualization)"),
         ("Analytics/ML", "Analytics Layer\n(Data Science & ML)"),
         ("Monitoring", "Monitoring & Alerts\n(Elastic / Kibana / Grafana)")]
        (("source_A", "Ingestion Layer") :: complexFixedEdges)) (by rfl),
   C3_layered_cross_product.2.2.1 ["source_A"] ["I1", "I2"] "source_A" "I2"
      (by decide) (by decide)⟩

/-- On an object whose present value at `cat` is itself an object, the
extraction succeeds, and an absent category extracts to `"Unknown"`. -/
theorem extractTool_obj (fs : List (String × Json)) (cat : String)
    (h : ∀ v, lookupField fs cat = some v → ∃ gs, v = Json.obj gs) :
    ∃ j, extractTool (Json.obj fs) cat = .ok j ∧
      (lookupField fs cat = none → j = Json.str "Unknown") := by
  cases hl : lookupField fs cat with
  | none =>
    refine ⟨Json.str "Unknown", ?_, fun _ => rfl⟩
    simp [extractTool, pyGet, hl, lookupField]
  | some v =>
    obtain ⟨gs, rfl⟩ := h v hl
    refine ⟨(lookupField gs "tool").getD (Json.str "Unknown"), ?_, ?_⟩
    · simp [extractTool, pyGet, hl]
    · intro h0
      exact Option.noConfusion h0

/-- C2 counterexample: the oracle reply `\x7b"ingestion": 5\x7d` is valid
JSON missing two of the three category keys, yet the rendering raises an
`AttributeError` (Python calls `.get` on the int 5) instead of substituting
"Unknown" — so the adapter and rendering do not avoid exceptions for every
reply text. -/
theorem C2_counterexample :
    generate_flowchart_and_json ["Google Ads"] "\x7b\"ingestion\": 5\x7d"
      = .error PyError.attributeError := by rfl

/-- C2 (amended): a reply that is not valid JSON yields a parse failure
surfaced as the (None, None) result, never an exception; a reply parsing to
a non-empty JSON object whose present category values are themselves
objects is rendered without raising, with "Unknown" substituted for each of
the three categories that is absent; but a truthy valid-JSON reply that is
not an object — or an object one of whose category values is not an object —
raises an `AttributeError` in the rendering, as the counterexample shows. -/
theorem C2_oracle_robustness_amended :
    (∀ ds r, json_loads r = none → generate_flowchart_and_json ds r = .ok (none, none)) ∧
    (∀ ds r fs, json_loads r = some (Json.obj fs) → fs ≠ [] →
      (∀ cat v, (cat = "ingestion" ∨ cat = "transformation" ∨ cat = "visualization") →
          lookupField fs cat = some v → ∃ gs, v = Json.obj gs) →
      ∃ g, generate_flowchart_and_json ds r
          = .ok (some (json_dumps (Json.obj fs)), some g) ∧
        g.nodes.length = 4 ∧ g.edges.length = 3 ∧
        (lookupField fs "ingestion" = none →
          g.nodes[1]? = some ("Ingestion", "Unknown (Ingestion)")) ∧
        (lookupField fs "transformation" = none →
          g.nodes[2]? = some ("Transformation", "Unknown (Transformation)")) ∧
        (lookupField fs "visualization" = none →
          g.nodes[3]? = some ("Visualization", "Unknown (Visualization)"))) ∧
    json_loads "not json" = none ∧
    generate_flowchart_and_json ["Google Ads"] "not json" = .ok (none, none) ∧
    generate_flowchart_and_json ["Google Ads"]
        "\x7b\"ingestion\": \x7b\"tool\": \"dbt\"\x7d\x7d"
      = .ok (some (json_dumps (Json.obj [("ingestion", Json.obj [("tool", Json.str "dbt")])])),
             some (Graph.mk
               [("Data Sources", "Google Ads"),
                ("Ingestion", "dbt (Ingestion)"),
                ("Transformation", "Unknown (Transformation)"),
                ("Visualization", "Unknown (Visualization)")]
               [("Data Sources", "Ingestion"), ("Ingestion", "Transformation"),
                ("Transformation", "Visualization")])) ∧
    generate_flowchart_and_json ["Google Ads"] "true"
      = .error PyError.attributeError := by
  refine ⟨?_, ?_, by rfl, by rfl, by rfl, by rfl⟩
  · intro ds r hr
    simp [generate_flowchart_and_json, get_tool_suggestions, hr]
  · intro ds r fs hr hne hvals
    obtain ⟨ji, hi, hiU⟩ := extractTool_obj fs "ingestion"
      (fun v hv => hvals _ v (by tauto) hv)
    obtain ⟨jt, ht, htU⟩ := extractTool_obj fs "transformation"
      (fun v hv => hvals _ v (by tauto) hv)
    obtain ⟨jv, hv2, hvU⟩ := extractTool_obj fs "visualization"
      (fun v hv => hvals _ v (by tauto) hv)
    have hbuild : buildLinearFlowchart ds (Json.obj fs) = .ok
        { nodes := [("Data Sources", String.intercalate "\n" ds),
                    ("Ingestion", pyFormat ji ++ " (Ingestion)"),
                    ("Transformation", pyFormat jt ++ " (Transformation)"),
                    ("Visualization", pyFormat jv ++ " (Visualization)")],
          edges := [("Data Sources", "Ingestion"), ("Ingestion", "Transformation"),
                    ("Transformation", "Visualization")] } := by
      simp [buildLinearFlowchart, hi, ht, hv2]
    have htruthy : (Json.obj fs).truthy = true := by
      simp [Json.truthy, List.isEmpty_iff, hne]
    refine ⟨{ nodes := [("Data Sources", String.intercalate "\n" ds),
                        ("Ingestion", pyFormat ji ++ " (Ingestion)"),
                        ("Transformation", pyFormat jt ++ " (Transformation)"),
                        ("Visualization", pyFormat jv ++ " (Visualization)")],
              edges := [("Data Sources", "Ingestion"), ("Ingestion", "Transformation"),
                        ("Transformation", "Visualization")] }, ?_, rfl, rfl, ?_, ?_, ?_⟩
    · simp [generate_flowchart_and_json, get_tool_suggestions, hr, htruthy, hbuild]
    · intro habs
      rw [hiU habs]
      rfl
    · intro habs
      rw [htU habs]
      rfl
    · intro habs
      rw [hvU habs]
      rfl

/-! ## Round-trip helper lemmas (C8) -/

/-- Every `Char` is a Unicode scalar value: below the surrogate range or
strictly between it and 0x110000. -/
theorem char_valid_nat (c : Char) :
    c.toNat < 55296 ∨ (57343 < c.toNat ∧ c.toNat < 1114112) := by
  rcases c.valid with h | ⟨h1, h2⟩
  · exact Or.inl h
  · exact Or.inr ⟨h1, h2⟩

theorem hexVal_hexDigit {k : Nat} (h : k < 16) : hexVal (hexDigit k) = some k := by
  interval_cases k <;> decide

theorem parseJStringBody_cons_backslash (r : List Char) :
    parseJStringBody ('\\' :: r) = parseEscapeSeq r := by
  rw [parseJStringBody, if_neg (by decide), if_pos rfl]

theorem parseJStringBody_cons_plain {c : Char} (h1 : ¬(c = '"')) (h2 : ¬(c = '\\'))
    (h3 : ¬(c.toNat < 32)) (r : List Char) :
    parseJStringBody (c :: r) = (parseJStringBody r).map (fun p => (c :: p.1, p.2)) := by
  rw [parseJStringBody, if_neg h1, if_neg h2, if_neg h3]

theorem parseEscapeSeq_simple {e d : Char} (h : unescapeChar e = some d) (r : List Char) :
    parseEscapeSeq (e :: r) = (parseJStringBody r).map (fun p => (d :: p.1, p.2)) := by
  have hu : ¬(e = 'u') := by
    intro he
    rw [he, show unescapeChar 'u' = none from by decide] at h
    exact Option.noConfusion h
  rw [parseEscapeSeq, if_neg hu, h]

theorem parse_twoCharEsc {e c : Char} (h : unescapeChar e = some c) (r : List Char) :
    parseJStringBody ('\\' :: e :: r) = (parseJStringBody r).map (fun p => (c :: p.1, p.2)) := by
  rw [parseJStringBody_cons_backslash, parseEscapeSeq_simple h]

theorem parseEscapeSeq_u4 {a b c2 d : Char} {x y z w : Nat}
    (ha : hexVal a = some x) (hb : hexVal b = some y) (hc : hexVal c2 = some z)
    (hd : hexVal d = some w)
    (hlo : ¬(55296 ≤ hex4 x y z w ∧ hex4 x y z w < 56320))
    (hhi : ¬(56320 ≤ hex4 x y z w ∧ hex4 x y z w < 57344))
    (r : List Char) :
    parseEscapeSeq ('u' :: a :: b :: c2 :: d :: r)
      = (parseJStringBody r).map (fun p => (Char.ofNat (hex4 x y z w) :: p.1, p.2)) := by
  rw [parseEscapeSeq, if_pos rfl]
  simp only [parseU]
  rw [ha, hb, hc, hd]
  dsimp only
  rw [if_neg hlo, if_neg hhi]

theorem parseEscapeSeq_surr {a b c2 d a2 b2 c3 d2 : Char} {x y z w x2 y2 z2 w2 : Nat}
    (ha : hexVal a = some x) (hb : hexVal b = some y) (hc : hexVal c2 = some z)
    (hd : hexVal d = some w)
    (ha2 : hexVal a2 = some x2) (hb2 : hexVal b2 = some y2) (hc2 : hexVal c3 = some z2)
    (hd2 : hexVal d2 = some w2)
    (hhi : 55296 ≤ hex4 x y z w ∧ hex4 x y z w < 56320)
    (hlo : 56320 ≤ hex4 x2 y2 z2 w2 ∧ hex4 x2 y2 z2 w2 < 57344)
    (r : List Char) :
    parseEscapeSeq ('u' :: a :: b :: c2 :: d :: '\\' :: 'u' :: a2 :: b2 :: c3 :: d2 :: r)
      = (parseJStringBody r).map (fun p =>
          (Char.ofNat (65536 + 1024 * (hex4 x y z w - 55296)
            + (hex4 x2 y2 z2 w2 - 56320)) :: p.1, p.2)) := by
  rw [parseEscapeSeq, if_pos rfl]
  simp only [parseU]
  rw [ha, hb, hc, hd]
  dsimp only
  rw [if_pos hhi]
  simp only [parseLowSurr]
  rw [if_pos (⟨trivial, trivial⟩ : True ∧ True)]
  rw [ha2, hb2, hc2, hd2]
  dsimp only
  rw [if_pos hlo]

theorem hex4_digits {n : Nat} (_h : n < 65536) :
    hex4 (n / 4096) (n / 256 % 16) (n / 16 % 16) (n % 16) = n := by
  simp only [hex4]
  omega

theorem parse_uEscape {n : Nat} (h : n < 65536)
    (hlo : ¬(55296 ≤ n ∧ n < 56320)) (hhi : ¬(56320 ≤ n ∧ n < 57344)) (r : List Char) :
    parseJStringBody (uEscape n ++ r)
      = (parseJStringBody r).map (fun p => (Char.ofNat n :: p.1, p.2)) := by
  simp only [uEscape, List.cons_append, List.nil_append]
  rw [parseJStringBody_cons_backslash]
  rw [parseEscapeSeq_u4 (hexVal_hexDigit (by omega)) (hexVal_hexDigit (by omega))
    (hexVal_hexDigit (by omega)) (hexVal_hexDigit (by omega))
    (by rw [hex4_digits h]; exact hlo) (by rw [hex4_digits h]; exact hhi)]
  rw [hex4_digits h]

theorem parse_uEscape_pair {n : Nat} (h1 : 65536 ≤ n) (h2 : n < 1114112) (r : List Char) :
    parseJStringBody (uEscape (hiSurr n) ++ (uEscape (loSurr n) ++ r))
      = (parseJStringBody r).map (fun p => (Char.ofNat n :: p.1, p.2)) := by
  have hhiB : hiSurr n < 65536 := by simp only [hiSurr]; omega
  have hloB : loSurr n < 65536 := by simp only [loSurr]; omega
  simp only [uEscape, List.cons_append, List.nil_append]
  rw [parseJStringBody_cons_backslash]
  rw [parseEscapeSeq_surr (hexVal_hexDigit (by omega)) (hexVal_hexDigit (by omega))
    (hexVal_hexDigit (by omega)) (hexVal_hexDigit (by omega))
    (hexVal_hexDigit (by omega)) (hexVal_hexDigit (by omega))
    (hexVal_hexDigit (by omega)) (hexVal_hexDigit (by omega))
    (by rw [hex4_digits hhiB]; simp only [hiSurr]; omega)
    (by rw [hex4_digits hloB]; simp only [loSurr]; omega)]
  rw [hex4_digits hhiB, hex4_digits hloB]
  have hval : 65536 + 1024 * (hiSurr n - 55296) + (loSurr n - 56320) = n := by
    simp only [hiSurr, loSurr]
    omega
  rw [hval]

/-- Escaping a string body the way `json.dumps` does and parsing it back with
the scanner model recovers the body, for every string. -/
theorem parseJStringBody_escape (s : List Char) :
    ∀ rest, parseJStringBody (escapeList s ++ '"' :: rest) = some (s, rest) := by
  induction s with
  | nil => intro rest; rfl
  | cons c cs ih =>
    intro rest
    rw [escapeList]
    by_cases h1 : c = '"'
    · subst h1
      rw [escapeChar, if_pos rfl]
      simp only [List.cons_append, List.nil_append, List.append_assoc]
      rw [parse_twoCharEsc (by decide : unescapeChar '"' = some '"'), ih rest]
      rfl
    · by_cases h2 : c = '\\'
      · subst h2
        rw [escapeChar, if_neg (by decide), if_pos rfl]
        simp only [List.cons_append, List.nil_append, List.append_assoc]
        rw [parse_twoCharEsc (by decide : unescapeChar '\\' = some '\\'), ih rest]
        rfl
      · by_cases h3 : c = '\n'
        · subst h3
          rw [escapeChar, if_neg (by decide), if_neg (by decide), if_pos rfl]
          simp only [List.cons_append, List.nil_append, List.append_assoc]
          rw [parse_twoCharEsc (by decide : unescapeChar 'n' = some '\n'), ih rest]
          rfl
        · by_cases h4 : c = '\t'
          · subst h4
            rw [escapeChar, if_neg (by decide), if_neg (by decide), if_neg (by decide),
              if_pos rfl]
            simp only [List.cons_append, List.nil_append, List.append_assoc]
            rw [parse_twoCharEsc (by decide : unescapeChar 't' = some '\t'), ih rest]
            rfl
          · by_cases h5 : c = '\r'
            · subst h5
              rw [escapeChar, if_neg (by decide), if_neg (by decide), if_neg (by decide),
                if_neg (by decide), if_pos rfl]
              simp only [List.cons_append, List.nil_append, List.append_assoc]
              rw [parse_twoCharEsc (by decide : unescapeChar 'r' = some '\r'), ih rest]
              rfl
            · by_cases h6 : c = Char.ofNat 8
              · subst h6
                rw [escapeChar, if_neg (by decide), if_neg (by decide), if_neg (by decide),
                  if_neg (by decide), if_neg (by decide), if_pos rfl]
                simp only [List.cons_append, List.nil_append, List.append_assoc]
                rw [parse_twoCharEsc (by decide : unescapeChar 'b' = some (Char.ofNat 8)),
                  ih rest]
                rfl
              · by_cases h7 : c = Char.ofNat 12
                · subst h7
                  rw [escapeChar, if_neg (by decide), if_neg (by decide), if_neg (by decide),
                    if_neg (by decide), if_neg (by decide), if_neg (by decide), if_pos rfl]
                  simp only [List.cons_append, List.nil_append, List.append_assoc]
                  rw [parse_twoCharEsc (by decide : unescapeChar 'f' = some (Char.ofNat 12)),
                    ih rest]
                  rfl
                · by_cases h8 : (c.toNat < 32 || 126 < c.toNat) = true
                  · rw [escapeChar, if_neg h1, if_neg h2, if_neg h3, if_neg h4, if_neg h5,
                      if_neg h6, if_neg h7, if_pos h8]
                    by_cases h9 : c.toNat < 65536
                    · rw [if_pos h9]
                      rw [List.append_assoc]
                      rw [parse_uEscape h9
                        (by rcases char_valid_nat c with hv | hv <;> omega)
                        (by rcases char_valid_nat c with hv | hv <;> omega), ih rest]
                      rw [Char.ofNat_toNat]
                      rfl
                    · rw [if_neg h9]
                      have hv2 : c.toNat < 1114112 := by
                        rcases char_valid_nat c with hv | hv <;> omega
                      rw [List.append_assoc, List.append_assoc]
                      rw [parse_uEscape_pair (by omega) hv2, ih rest]
                      rw [Char.ofNat_toNat]
                      rfl
                  · rw [escapeChar, if_neg h1, if_neg h2, if_neg h3, if_neg h4, if_neg h5,
                      if_neg h6, if_neg h7, if_neg h8]
                    simp only [List.cons_append, List.nil_append]
                    have h32 : ¬(c.toNat < 32) := by
                      simp only [Bool.or_eq_true, decide_eq_true_eq, not_or] at h8
                      exact h8.1
                    rw [parseJStringBody_cons_plain h1 h2 h32, ih rest]
                    rfl

theorem dataMk (l : List Char) : (String.mk l).data = l := rfl

theorem mkData (s : String) : String.mk s.data = s := rfl

theorem indentZero : indentChars 0 = [] := rfl

theorem indentOne : indentChars 1 = ' ' :: ' ' :: ' ' :: ' ' :: [] := rfl

theorem indentTwo :
    indentChars 2 = ' ' :: ' ' :: ' ' :: ' ' :: ' ' :: ' ' :: ' ' :: ' ' :: [] := rfl

theorem mkIngestion :
    String.mk ('i' :: 'n' :: 'g' :: 'e' :: 's' :: 't' :: 'i' :: 'o' :: 'n' :: [])
      = "ingestion" := rfl

theorem mkTransformation :
    String.mk ('t' :: 'r' :: 'a' :: 'n' :: 's' :: 'f' :: 'o' :: 'r' :: 'm' :: 'a' ::
      't' :: 'i' :: 'o' :: 'n' :: []) = "transformation" := rfl

theorem mkVisualization :
    String.mk ('v' :: 'i' :: 's' :: 'u' :: 'a' :: 'l' :: 'i' :: 'z' :: 'a' :: 't' ::
      'i' :: 'o' :: 'n' :: []) = "visualization" := rfl

theorem mkTool : String.mk ('t' :: 'o' :: 'o' :: 'l' :: []) = "tool" := rfl

/-- Parsing the indent-4 dump of a well-formed suggestion recovers it, for
any sufficient fuel. -/
theorem parse_dump_sugg (t : ToolSuggestion) (m : Nat) :
    parseValue (m + 4) (dumpVal 0 t.toJson) = some (t.toJson, []) := by
  obtain ⟨t1, t2, t3⟩ := t
  simp only [ToolSuggestion.toJson]
  have hs1 := parseJStringBody_escape t1.data
  have hs2 := parseJStringBody_escape t2.data
  have hs3 := parseJStringBody_escape t3.data
  simp [dumpVal, dumpFieldsLoop, quoteStr, indentZero, indentOne, indentTwo,
    escapeList, escapeChar, parseValue, parseMembersLoop, skipWs,
    parseJStringBody, hs1, hs2, hs3, insertField, mkData, mkIngestion,
    mkTransformation, mkVisualization, mkTool, List.append_eq,
    List.singleton_append]

/-- C8: serialising any well-formed ToolSuggestion record with `json.dumps`
and re-parsing the text with `json.loads` yields the identical record. -/
theorem C8_roundtrip (t : ToolSuggestion) :
    json_loads (json_dumps t.toJson) = some t.toJson := by
  have hpos : 1 ≤ (dumpVal 0 t.toJson).length := by
    obtain ⟨t1, t2, t3⟩ := t
    simp [ToolSuggestion.toJson, dumpVal]
  have hm : 3 * (dumpVal 0 t.toJson).length + 3
      = (3 * (dumpVal 0 t.toJson).length - 1) + 4 := by omega
  have hp := parse_dump_sugg t (3 * (dumpVal 0 t.toJson).length - 1)
  simp only [json_loads, json_dumps, dataMk]
  rw [hm, hp]
  rfl

/-- Witness for C2 (amended): the parse-failure branch on "not json", and
the missing-keys branch on the object reply `\x7b"a": 1\x7d`. -/
theorem C2_oracle_robustness_amended_witness :
    generate_flowchart_and_json ["Google Ads"] "not json" = .ok (none, none) ∧
    exceptIsOk (generate_flowchart_and_json ["Google Ads"] "\x7b\"a\": 1\x7d") = true := by
  refine ⟨C2_oracle_robustness_amended.1 ["Google Ads"] "not json" rfl, ?_⟩
  obtain ⟨g, hg, -, -, -, -, -⟩ := C2_oracle_robustness_amended.2.1 ["Google Ads"]
      "\x7b\"a\": 1\x7d" [("a", Json.num 1 0)] rfl (by simp)
      (fun cat v hcat hv => by
        rcases hcat with rfl | rfl | rfl <;> exact Option.noConfusion hv)
  rw [hg]
  rfl

